import Mathlib

/-!
# LAN link provider (`core/backends/lan/lanlinkprovider.cpp`)

A shallow embedding of the handlers of `LanLinkProvider`: the provider's members
become a record, every slot becomes a function from the record (and the data
the slot reads from its socket) to the new record and the list of calls the
slot makes on its collaborators, in program order.

Conventions of the embedding:
* a `QSslSocket *` / `LanDeviceLink *` is a natural number (the object's
  address); `new` hands out the next unused number;
* a `QMap` is an association list with at most one pair per key;
* `QString` is `String`, `QByteArray` the list of its byte values, `int` is `Int`;
* log statements and the `new`/`delete` of `NetworkPacket` buffers are not
  recorded.
-/

namespace KdeConnect

/-! ## Qt value types -/

abbrev QString := String

/-- A `QByteArray`: the list of its byte values. -/
abbrev QByteArray := List Nat

/-- Address of a `QSslSocket` object. -/
abbrev SocketPtr := Nat

/-- Address of a `LanDeviceLink` object. -/
abbrev LinkPtr := Nat

/-- An IPv4 `QHostAddress`, as its 32-bit value. -/
abbrev QHostAddress := Nat

/-- The test `QHostAddress::isLoopback()` on an IPv4 address: 127.0.0.0/8. -/
def QHostAddress.isLoopback (a : QHostAddress) : Bool :=
  a / 2 ^ 24 % 256 == 127

/-- A `QSslCertificate`: the subject display name (common name) and a number
standing for the rest of the certificate. `operator==` compares both. -/
structure QSslCertificate where
  subjectDisplayName : QString
  der : Nat
  deriving DecidableEq, Repr

/-- The enumeration `QSslError::SslError`. -/
inductive SslError where
  | NoError
  | UnableToGetIssuerCertificate
  | UnableToDecryptCertificateSignature
  | UnableToDecodeIssuerPublicKey
  | CertificateSignatureFailed
  | CertificateNotYetValid
  | CertificateExpired
  | InvalidNotBeforeField
  | InvalidNotAfterField
  | SelfSignedCertificate
  | SelfSignedCertificateInChain
  | UnableToGetLocalIssuerCertificate
  | UnableToVerifyFirstCertificate
  | CertificateRevoked
  | InvalidCaCertificate
  | PathLengthExceeded
  | InvalidPurpose
  | CertificateUntrusted
  | CertificateRejected
  | SubjectIssuerMismatch
  | AuthorityIssuerSerialNumberMismatch
  | NoPeerCertificate
  | HostNameMismatch
  | NoSslSupport
  | CertificateBlacklisted
  | UnspecifiedError
  deriving DecidableEq, Repr

/-- A `QSslSocket` as the handlers see it once TLS is up: its address and the
certificate the peer presented. -/
structure QSslSocket where
  ptr : SocketPtr
  peerCertificate : QSslCertificate
  deriving DecidableEq, Repr

/-! ## `QMap` -/

/-- `QMap<K, V>` as an association list. -/
abbrev QMap (K V : Type) := List (K × V)

namespace QMap

variable {K V : Type} [DecidableEq K]

/-- The lookup `QMap::find` / `QMap::value`: the value stored under `k`, if any. -/
def find : QMap K V → K → Option V
  | [], _ => none
  | (k1, v1) :: m, k => if k1 = k then some v1 else find m k

/-- The assignment `m[k] = v`: replaces the value under `k`, adds the pair when
the key is new. -/
def insert : QMap K V → K → V → QMap K V
  | [], k, v => [(k, v)]
  | (k1, v1) :: m, k, v => if k1 = k then (k, v) :: m else (k1, v1) :: insert m k v

/-- The map left by `QMap::take(k)` / `QMap::remove(k)`. -/
def remove : QMap K V → K → QMap K V
  | [], _ => []
  | (k1, v1) :: m, k => if k1 = k then remove m k else (k1, v1) :: remove m k

/-- The count `QMap::size()`. -/
def size (m : QMap K V) : Nat := m.length

/-- The list `QMap::keys()`. -/
def keys (m : QMap K V) : List K := m.map Prod.fst

end QMap

/-! ## Packets and device information -/

/-- A `NetworkPacket`, reduced to the type tag and the two body fields this
file reads (`networkpacket.h` is outside this file). A field that is absent
from the body is `none`. -/
structure NetworkPacket where
  type : QString
  deviceId : Option QString
  tcpPort : Option Int
  deriving DecidableEq, Repr

/-- The read `np->get<QString>("deviceId")`: the default-constructed string when
the key is absent. -/
def NetworkPacket.getDeviceId (np : NetworkPacket) : QString :=
  np.deviceId.getD ""

/-- The read `np->get<int>("tcpPort")`: `0` when the key is absent. -/
def NetworkPacket.getTcpPort (np : NetworkPacket) : Int :=
  np.tcpPort.getD 0

/-- The write `np.set("tcpPort", port)` of a `quint16` port. -/
def NetworkPacket.setTcpPort (np : NetworkPacket) (port : Nat) : NetworkPacket :=
  { np with tcpPort := some (port : Int) }

/-- The fields of `DeviceInfo` this file reads. -/
structure DeviceInfo where
  id : QString
  certificate : QSslCertificate
  deriving DecidableEq, Repr

/-- Modelled from the spec: `DeviceInfo::FromIdentityPacketAndCert` is declared in
`deviceinfo.h`, which is not part of this file. The identity packet retained in
the pending record gives the device id, the socket's peer certificate gives
the certificate. -/
def DeviceInfo.FromIdentityPacketAndCert (np : NetworkPacket) (cert : QSslCertificate) :
    DeviceInfo :=
  { id := np.getDeviceId, certificate := cert }

/-- A `LanDeviceLink` object as the provider reads it: its address and the
`deviceInfo()` it was constructed with. The socket it wraps is replaced by
`reset`, which the provider never reads back; the call is recorded as an
effect. -/
structure LanDeviceLink where
  ptr : LinkPtr
  deviceInfo : DeviceInfo
  deriving DecidableEq, Repr

/-- The value type of `m_receivedIdentityPackets`: a packet pointer (`none` is
the null pointer of a default-constructed record) and the sender address
(`none` is the default-constructed null address). -/
structure PendingConnection where
  np : Option NetworkPacket
  sender : Option QHostAddress
  deriving DecidableEq, Repr

/-! ## Signals, slots, effects -/

inductive Signal where
  | connected
  | errorOccurred
  | disconnected
  | readyRead
  | encrypted
  | sslErrors
  | timeout
  deriving DecidableEq, Repr

inductive Slot where
  | tcpSocketConnected
  | connectError
  | deleteLater
  | dataReceived
  | encrypted
  | sslErrors
  | timerDeleteLater
  | timeoutLambda
  deriving DecidableEq, Repr

/-- The calls a handler makes on its collaborators. -/
inductive Effect where
  /-- The allocation `new QSslSocket(this)`. -/
  | newSocket (socket : SocketPtr)
  /-- The call `socket->setProxy(QNetworkProxy::NoProxy)`. -/
  | setProxy (socket : SocketPtr)
  /-- The call `configureSocket(socket)`. -/
  | configureSocket (socket : SocketPtr)
  /-- The call `configureSslSocket(socket, deviceId, isDeviceTrusted)`. -/
  | configureSslSocket (socket : SocketPtr) (deviceId : QString) (isDeviceTrusted : Bool)
  /-- A `connect(sender, signal, receiver slot)`. -/
  | connectSignal (socket : SocketPtr) (sig : Signal) (slot : Slot)
  /-- A `disconnect(sender, signal, receiver slot)`. -/
  | disconnectSignal (socket : SocketPtr) (sig : Signal) (slot : Slot)
  /-- The call `socket->connectToHost(address, port)`. -/
  | connectToHost (socket : SocketPtr) (address : QHostAddress) (port : Int)
  /-- The call `socket->disconnectFromHost()`. -/
  | disconnectFromHost (socket : SocketPtr)
  /-- The call `socket->deleteLater()`. -/
  | deleteLater (socket : SocketPtr)
  /-- The call `socket->startServerEncryption()`. -/
  | startServerEncryption (socket : SocketPtr)
  /-- The call `socket->startClientEncryption()`. -/
  | startClientEncryption (socket : SocketPtr)
  /-- A single-shot `QTimer` with parent `socket`, started with the interval in ms. -/
  | startTimer (socket : SocketPtr) (interval : Nat)
  /-- The allocation `new LanDeviceLink(deviceInfo, this, socket)`. -/
  | newLanDeviceLink (link : LinkPtr) (deviceInfo : DeviceInfo) (socket : SocketPtr)
  /-- The call `deviceLink->reset(socket)`. -/
  | reset (link : LinkPtr) (socket : SocketPtr)
  /-- The emission `Q_EMIT onConnectionReceived(deviceLink)`. -/
  | onConnectionReceived (link : LinkPtr)
  /-- A `Q_ASSERT` whose condition is false. -/
  | assertFailed
  /-- The call `socket->write(payload)`. -/
  | write (socket : SocketPtr) (payload : QByteArray)
  /-- The call `m_udpSocket.writeDatagram(payload, address, port)`; the address of
  a default-constructed record is the null address, `none`. -/
  | writeDatagram (payload : QByteArray) (address : Option QHostAddress) (port : Nat)
  /-- The call `m_udpSocket.bind(address, port, QUdpSocket::ShareAddress)`. -/
  | bindUdp (address : QHostAddress) (port : Nat)
  /-- The call `m_server->listen(address, port)`. -/
  | listen (address : QHostAddress) (port : Nat)
  /-- The call `broadcastUdpIdentityPacket()`, entered while `m_tcpPort` holds
  `tcpPort`, the port its datagrams are given (line 226). -/
  | broadcastUdpIdentityPacket (tcpPort : Nat)
  /-- The signal `timeout()` of `m_combineBroadcastsTimer`. -/
  | combineBroadcastsTimeout
  deriving DecidableEq, Repr

/-! ## The provider -/

def MAX_UNPAIRED_CONNECTIONS : Nat := 42

def MAX_REMEMBERED_IDENTITY_PACKETS : Nat := 42

/-- What the handlers read from outside this file: the singleton
`KdeConnectConfig::instance()`, the constants of `lanlinkprovider.h` and
`networkpackettypes.h`, and `NetworkPacket::unserialize`. -/
structure Env where
  /-- The value `KdeConnectConfig::instance().deviceId()`. -/
  deviceId : QString
  /-- The list `KdeConnectConfig::instance().trustedDevices()`. -/
  trustedDevices : List QString
  MIN_TCP_PORT : Nat
  MAX_TCP_PORT : Nat
  PACKET_TYPE_IDENTITY : QString
  /-- The parser `NetworkPacket::unserialize`: `none` when it returns `false`. -/
  unserialize : QByteArray → Option NetworkPacket
  /-- The encoder `NetworkPacket::serialize`. -/
  serialize : NetworkPacket → QByteArray

/-- Modelled from the spec: `DeviceInfo::toIdentityPacket` is declared in
`deviceinfo.h`, which is not part of this file. The packet built by
`KdeConnectConfig::instance().deviceInfo().toIdentityPacket()` has the identity
type and the fields of the local device identity; `tcpPort` is not one of
them, the provider adds it with `set` (lines 226 and 317). -/
def Env.identityPacket (env : Env) : NetworkPacket :=
  { type := env.PACKET_TYPE_IDENTITY, deviceId := some env.deviceId, tcpPort := none }

/-- The address `QHostAddress::LocalHost`, 127.0.0.1. -/
def QHostAddress.LocalHost : QHostAddress := 2130706433

/-- The address `QHostAddress::Any`, as 0.0.0.0. -/
def QHostAddress.Any : QHostAddress := 0

/-- The members of `LanLinkProvider` the handlers below read or write, and the
two allocation counters. -/
structure LanLinkProvider where
  /-- The listening state `m_server->isListening()`. -/
  m_serverListening : Bool
  m_tcpPort : Nat
  m_udpBroadcastPort : Nat
  m_udpListenPort : Nat
  /-- The state `m_combineBroadcastsTimer.isActive()`. -/
  m_combineBroadcastsTimer : Bool
  m_testMode : Bool
  m_links : QMap QString LanDeviceLink
  m_receivedIdentityPackets : QMap SocketPtr PendingConnection
  /-- The address the next `QSslSocket` is created at. -/
  nextSocket : SocketPtr
  /-- The address the next `LanDeviceLink` is created at. -/
  nextLink : LinkPtr
  deriving DecidableEq, Repr

/-- The constructor (lines 38-52): the server is not listening, `m_tcpPort` is 0,
the broadcast timer is idle, both maps are empty. -/
def LanLinkProvider.create (testMode : Bool) (udpBroadcastPort udpListenPort : Nat) :
    LanLinkProvider :=
  { m_serverListening := false, m_tcpPort := 0, m_udpBroadcastPort := udpBroadcastPort,
    m_udpListenPort := udpListenPort, m_combineBroadcastsTimer := false,
    m_testMode := testMode, m_links := [], m_receivedIdentityPackets := [],
    nextSocket := 0, nextLink := 0 }

/-- The provider right after its constructor, with both UDP ports at 1716: both
maps empty. -/
def LanLinkProvider.init (testMode : Bool) : LanLinkProvider :=
  LanLinkProvider.create testMode 1716 1716

/-- A datagram as `readDatagram` returns it. -/
structure Datagram where
  sender : QHostAddress
  data : QByteArray

namespace LanLinkProvider

/-- One iteration of the loop of `udpBroadcastReceived` (lines 250-304): the
datagram is read, filtered, and when it passes every filter a socket is created,
recorded and dialled. -/
def udpDatagram (env : Env) (self : LanLinkProvider) (d : Datagram) :
    LanLinkProvider × List Effect :=
  if d.sender.isLoopback && !self.m_testMode then (self, [])
  else
    match env.unserialize d.data with
    | none => (self, [])
    | some receivedPacket =>
      if receivedPacket.type ≠ env.PACKET_TYPE_IDENTITY then (self, [])
      else if receivedPacket.getDeviceId = env.deviceId then (self, [])
      else
        let tcpPort := receivedPacket.getTcpPort
        if tcpPort < (env.MIN_TCP_PORT : Int) ∨ tcpPort > (env.MAX_TCP_PORT : Int) then (self, [])
        else if self.m_receivedIdentityPackets.size > MAX_REMEMBERED_IDENTITY_PACKETS then
          (self, [])
        else
          let socket := self.nextSocket
          ({ self with
              nextSocket := socket + 1
              m_receivedIdentityPackets :=
                self.m_receivedIdentityPackets.insert socket
                  { np := some receivedPacket, sender := some d.sender } },
           [Effect.newSocket socket, Effect.setProxy socket,
            Effect.connectSignal socket Signal.connected Slot.tcpSocketConnected,
            Effect.connectSignal socket Signal.errorOccurred Slot.connectError,
            Effect.connectToHost socket d.sender tcpPort])

/-- The slot `udpBroadcastReceived` (lines 247-306): the loop over the pending
datagrams, oldest first. -/
def udpBroadcastReceived (env : Env) :
    LanLinkProvider → List Datagram → LanLinkProvider × List Effect
  | self, [] => (self, [])
  | self, d :: pending =>
    let r1 := udpDatagram env self d
    let r2 := udpBroadcastReceived env r1.1 pending
    (r2.1, r1.2 ++ r2.2)

/-- The slot `sslErrors` (lines 397-417). The loop computes `fatal`: some error
is not `SelfSignedCertificate`. -/
def sslErrors (self : LanLinkProvider) (socket : SocketPtr) (errors : List SslError) :
    LanLinkProvider × List Effect :=
  let fatal := errors.foldl (fun fatal error =>
    if error ≠ SslError.SelfSignedCertificate then true else fatal) false
  if fatal then
    ({ self with m_receivedIdentityPackets := self.m_receivedIdentityPackets.remove socket },
     [Effect.disconnectFromHost socket])
  else (self, [])

/-- The loop of `newConnection` (lines 421-444) over `pending` connections the
server holds: each accepted socket is configured and given a 1000 ms
single-shot timer. -/
def newConnection : LanLinkProvider → Nat → LanLinkProvider × List Effect
  | self, 0 => (self, [])
  | self, pending + 1 =>
    let socket := self.nextSocket
    let r := newConnection { self with nextSocket := socket + 1 } pending
    (r.1,
     [Effect.configureSocket socket,
      Effect.connectSignal socket Signal.disconnected Slot.deleteLater,
      Effect.connectSignal socket Signal.readyRead Slot.dataReceived,
      Effect.connectSignal socket Signal.encrypted Slot.timerDeleteLater,
      Effect.connectSignal socket Signal.timeout Slot.timeoutLambda,
      Effect.startTimer socket 1000] ++ r.2)

/-- The lambda connected to the timer of an accepted socket (lines 438-441). -/
def timeoutLambda (self : LanLinkProvider) (socket : SocketPtr) :
    LanLinkProvider × List Effect :=
  (self, [Effect.disconnectFromHost socket])

/-- The test `QIODevice::canReadLine()`: a line feed is buffered. -/
def canReadLine (buffer : QByteArray) : Bool :=
  buffer.contains 10

/-- The read `QIODevice::readLine()`: the buffered bytes up to and including the
first line feed. -/
def readLine : QByteArray → QByteArray
  | [] => []
  | b :: rest => if b = 10 then [b] else b :: readLine rest

/-- The slot `dataReceived` (lines 447-509), run on an accepted socket whose read
buffer holds `buffer` (so `bytesAvailable()` is its length). -/
def dataReceived (env : Env) (self : LanLinkProvider) (socket : SocketPtr)
    (buffer : QByteArray) : LanLinkProvider × List Effect :=
  if buffer.length > 8192 then (self, [Effect.disconnectFromHost socket])
  else if !canReadLine buffer then (self, [])
  else
    let data := readLine buffer
    match env.unserialize data with
    | none => (self, [])
    | some np =>
      if np.type ≠ env.PACKET_TYPE_IDENTITY then (self, [])
      else if self.m_receivedIdentityPackets.size > MAX_REMEMBERED_IDENTITY_PACKETS then
        (self, [])
      else
        let pending : PendingConnection :=
          match self.m_receivedIdentityPackets.find socket with
          | some p => { p with np := some np }
          | none => { np := some np, sender := none }
        let deviceId := np.getDeviceId
        let isDeviceTrusted := env.trustedDevices.contains deviceId
        ({ self with
            m_receivedIdentityPackets := self.m_receivedIdentityPackets.insert socket pending },
         [Effect.disconnectSignal socket Signal.readyRead Slot.dataReceived,
          Effect.configureSslSocket socket deviceId isDeviceTrusted,
          Effect.connectSignal socket Signal.encrypted Slot.encrypted] ++
         (if isDeviceTrusted then [Effect.connectSignal socket Signal.sslErrors Slot.sslErrors]
          else []) ++
         [Effect.startClientEncryption socket])

/-- The slot `onLinkDestroyed` (lines 511-516): the entry under `deviceId` is
taken out (`take` gives the null pointer when there is none) and compared with
the reported pointer. -/
def onLinkDestroyed (self : LanLinkProvider) (deviceId : QString) (oldPtr : LinkPtr) :
    LanLinkProvider × List Effect :=
  let link := (self.m_links.find deviceId).map LanDeviceLink.ptr
  ({ self with m_links := self.m_links.remove deviceId },
   if link = some oldPtr then [] else [Effect.assertFailed])

/-- The method `addLink` (lines 591-628). -/
def addLink (env : Env) (self : LanLinkProvider) (socket : QSslSocket)
    (deviceInfo : DeviceInfo) : LanLinkProvider × List Effect :=
  let certDeviceId := socket.peerCertificate.subjectDisplayName
  if deviceInfo.id ≠ certDeviceId then
    (self, [Effect.disconnectFromHost socket.ptr])
  else
    match self.m_links.find deviceInfo.id with
    | some deviceLink =>
      if deviceLink.deviceInfo.certificate ≠ deviceInfo.certificate then
        (self, [Effect.disconnectSignal socket.ptr Signal.disconnected Slot.deleteLater])
      else
        (self,
         [Effect.disconnectSignal socket.ptr Signal.disconnected Slot.deleteLater,
          Effect.reset deviceLink.ptr socket.ptr,
          Effect.onConnectionReceived deviceLink.ptr])
    | none =>
      let deviceLink : LanDeviceLink := { ptr := self.nextLink, deviceInfo := deviceInfo }
      let self1 := { self with nextLink := self.nextLink + 1 }
      let isDeviceTrusted := env.trustedDevices.contains deviceInfo.id
      if !isDeviceTrusted && self.m_links.size > MAX_UNPAIRED_CONNECTIONS then
        (self1,
         [Effect.disconnectSignal socket.ptr Signal.disconnected Slot.deleteLater,
          Effect.newLanDeviceLink deviceLink.ptr deviceInfo socket.ptr,
          Effect.disconnectSignal socket.ptr Signal.disconnected Slot.deleteLater,
          Effect.disconnectFromHost socket.ptr,
          Effect.deleteLater socket.ptr])
      else
        ({ self1 with m_links := self1.m_links.insert deviceInfo.id deviceLink },
         [Effect.disconnectSignal socket.ptr Signal.disconnected Slot.deleteLater,
          Effect.newLanDeviceLink deviceLink.ptr deviceInfo socket.ptr,
          Effect.disconnectSignal socket.ptr Signal.disconnected Slot.deleteLater,
          Effect.onConnectionReceived deviceLink.ptr])

/-- The slot `encrypted` (lines 377-395). The read `m_receivedIdentityPackets[socket].np`
gives the null pointer when the socket has no record or the record no packet;
dereferencing it is undefined, which is `none` here. -/
def encrypted (env : Env) (self : LanLinkProvider) (socket : QSslSocket) :
    Option (LanLinkProvider × List Effect) :=
  match (self.m_receivedIdentityPackets.find socket.ptr).bind PendingConnection.np with
  | none => none
  | some identityPacket =>
    let deviceInfo := DeviceInfo.FromIdentityPacketAndCert identityPacket socket.peerCertificate
    let r := addLink env self socket deviceInfo
    some ({ r.1 with
              m_receivedIdentityPackets := r.1.m_receivedIdentityPackets.remove socket.ptr },
          r.2)

/-- The read `m_receivedIdentityPackets[socket].sender`: the null address when
the socket has no record. -/
def recordedSender (self : LanLinkProvider) (socket : SocketPtr) : Option QHostAddress :=
  (self.m_receivedIdentityPackets.find socket).bind PendingConnection.sender

/-- The slot `connectError` (lines 308-324), Fallback 1: the local identity
with `tcpPort` set to `m_tcpPort` is sent to the recorded sender, the record is
taken out and the socket deleted. -/
def connectError (env : Env) (self : LanLinkProvider) (socket : SocketPtr) :
    LanLinkProvider × List Effect :=
  let np := env.identityPacket.setTcpPort self.m_tcpPort
  ({ self with m_receivedIdentityPackets := self.m_receivedIdentityPackets.remove socket },
   [Effect.writeDatagram (env.serialize np) (recordedSender self socket) self.m_udpBroadcastPort,
    Effect.deleteLater socket])

/-- The slot `tcpSocketConnected` (lines 327-375); `success` is what
`waitForBytesWritten()` returns. The read `m_receivedIdentityPackets[socket].np`
gives the null pointer when the socket has no record or the record no packet;
dereferencing it is undefined, which is `none` here. -/
def tcpSocketConnected (env : Env) (self : LanLinkProvider) (socket : SocketPtr)
    (success : Bool) : Option (LanLinkProvider × List Effect) :=
  match (self.m_receivedIdentityPackets.find socket).bind PendingConnection.np with
  | none => none
  | some receivedPacket =>
    let deviceId := receivedPacket.getDeviceId
    let np2 := env.identityPacket
    let connected :=
      [Effect.disconnectSignal socket Signal.errorOccurred Slot.connectError,
       Effect.configureSocket socket,
       Effect.connectSignal socket Signal.disconnected Slot.deleteLater,
       Effect.write socket (env.serialize np2)]
    if success then
      let isDeviceTrusted := env.trustedDevices.contains deviceId
      some (self,
        connected ++
        [Effect.configureSslSocket socket deviceId isDeviceTrusted,
         Effect.connectSignal socket Signal.encrypted Slot.encrypted,
         Effect.connectSignal socket Signal.sslErrors Slot.sslErrors,
         Effect.startServerEncryption socket])
    else
      some ({ self with
                m_receivedIdentityPackets := self.m_receivedIdentityPackets.remove socket },
        connected ++
        [Effect.writeDatagram (env.serialize np2) (recordedSender self socket)
          self.m_udpBroadcastPort])

/-- The loop of `onStart` (lines 105-113), entered with `m_tcpPort` at the given
value; `listen port` is what `m_server->listen(bindAddress, port)` returns, and
`m_tcpPort++` is the increment of a `quint16`. The result is `m_tcpPort` when
the loop is left, whether it was left with the server listening, and the ports
tried, in order; `none` when the fuel does not suffice. -/
def listenLoop (env : Env) (listen : Nat → Bool) : Nat → Nat → Option (Nat × Bool × List Nat)
  | 0, _ => none
  | fuel + 1, m_tcpPort =>
    if listen m_tcpPort then some (m_tcpPort, true, [m_tcpPort])
    else
      let next := (m_tcpPort + 1) % 65536
      if next > env.MAX_TCP_PORT then some (0, false, [m_tcpPort])
      else
        match listenLoop env listen fuel next with
        | none => none
        | some r => some (r.1, r.2.1, m_tcpPort :: r.2.2)

/-- The method `onStart` (lines 92-123), built without mDNS; `udpBound` is what
`m_udpSocket.bind` returns and `listen` what `m_server->listen` returns on a
port. The server listens once a `listen` call succeeded; when the search gives
up (lines 108-112) nothing closes the server, so it is left as it was. -/
def onStart (env : Env) (self : LanLinkProvider) (udpBound : Bool) (listen : Nat → Bool)
    (fuel : Nat) : Option (LanLinkProvider × List Effect) :=
  let bindAddress := if self.m_testMode then QHostAddress.LocalHost else QHostAddress.Any
  let bound :=
    [Effect.bindUdp bindAddress self.m_udpListenPort] ++
    (if udpBound then [] else [Effect.assertFailed])
  match listenLoop env listen fuel env.MIN_TCP_PORT with
  | none => none
  | some r =>
    let self1 :=
      { self with m_tcpPort := r.1, m_serverListening := self.m_serverListening || r.2.1 }
    if r.2.1 then
      some (self1,
        bound ++ r.2.2.map (Effect.listen bindAddress) ++
        [Effect.broadcastUdpIdentityPacket self1.m_tcpPort])
    else
      some (self1, bound ++ r.2.2.map (Effect.listen bindAddress))

/-- The slot `onNetworkChange` (lines 136-143). -/
def onNetworkChange (self : LanLinkProvider) : LanLinkProvider × List Effect :=
  if self.m_combineBroadcastsTimer then (self, [])
  else ({ self with m_combineBroadcastsTimer := true }, [])

/-- The slot `broadcastToNetwork` (lines 146-160), built without mDNS. -/
def broadcastToNetwork (self : LanLinkProvider) : LanLinkProvider × List Effect :=
  if !self.m_serverListening then (self, [])
  else
    (self,
     (if self.m_tcpPort ≠ 0 then [] else [Effect.assertFailed]) ++
     [Effect.broadcastUdpIdentityPacket self.m_tcpPort])

/-- The single-shot `m_combineBroadcastsTimer` fires: it can only do so while it
is active, becomes inactive, emits `timeout()` and with it runs the slot
connected at line 52, `broadcastToNetwork`. -/
def combineBroadcastsTimeout (self : LanLinkProvider) : LanLinkProvider × List Effect :=
  if self.m_combineBroadcastsTimer then
    ((broadcastToNetwork { self with m_combineBroadcastsTimer := false }).1,
     Effect.combineBroadcastsTimeout ::
       (broadcastToNetwork { self with m_combineBroadcastsTimer := false }).2)
  else (self, [])

/-! ## Runs of the broadcast debounce -/

/-- The two events of the debounce: a reachability event delivered to
`onNetworkChange`, and the event loop giving the timer its turn. -/
inductive NetworkEvent where
  | onNetworkChange
  | timerFire
  deriving DecidableEq, Repr

/-- One event on the provider; its effects are appended to the trace so far. -/
def networkStep (st : LanLinkProvider × List Effect) :
    NetworkEvent → LanLinkProvider × List Effect
  | NetworkEvent.onNetworkChange => ((onNetworkChange st.1).1, st.2 ++ (onNetworkChange st.1).2)
  | NetworkEvent.timerFire =>
    ((combineBroadcastsTimeout st.1).1, st.2 ++ (combineBroadcastsTimeout st.1).2)

/-- The provider and the trace after a sequence of events on `self`. -/
def networkRun (self : LanLinkProvider) (events : List NetworkEvent) :
    LanLinkProvider × List Effect :=
  events.foldl networkStep (self, [])

/-- The ports `m_server->listen` was called on in a trace, in order. -/
def listenPorts (trace : List Effect) : List Nat :=
  trace.filterMap (fun e =>
    match e with
    | Effect.listen _ port => some port
    | _ => none)

/-- How many broadcast rounds (calls of `broadcastUdpIdentityPacket`) a trace
holds. -/
def broadcastCount (trace : List Effect) : Nat :=
  trace.countP (fun e =>
    match e with
    | Effect.broadcastUdpIdentityPacket _ => true
    | _ => false)

/-- How often the broadcast timer fired, and so `broadcastToNetwork` ran, in a
trace. -/
def timeoutCount (trace : List Effect) : Nat :=
  trace.countP (fun e => e == Effect.combineBroadcastsTimeout)

/-- One when the broadcast timer is armed, zero when it is idle: the number of
firings still due. -/
def timerArmed (self : LanLinkProvider) : Nat :=
  if self.m_combineBroadcastsTimer then 1 else 0

/-- How many reachability events a sequence holds. -/
def changeCount (events : List NetworkEvent) : Nat :=
  events.countP (fun e => e == NetworkEvent.onNetworkChange)

/-! ## Runs of the link registry -/

/-- The two calls that change `m_links`. -/
inductive LinkEvent where
  | addLink (socket : QSslSocket) (deviceInfo : DeviceInfo)
  | onLinkDestroyed (deviceId : QString) (oldPtr : LinkPtr)

/-- One call on the provider; its effects are appended to the trace so far. -/
def linkStep (env : Env) (st : LanLinkProvider × List Effect) :
    LinkEvent → LanLinkProvider × List Effect
  | LinkEvent.addLink socket deviceInfo =>
    ((addLink env st.1 socket deviceInfo).1, st.2 ++ (addLink env st.1 socket deviceInfo).2)
  | LinkEvent.onLinkDestroyed deviceId oldPtr =>
    ((onLinkDestroyed st.1 deviceId oldPtr).1, st.2 ++ (onLinkDestroyed st.1 deviceId oldPtr).2)

/-- The provider and the trace after a sequence of calls, starting from the
freshly constructed provider. -/
def linkRun (env : Env) (events : List LinkEvent) : LanLinkProvider × List Effect :=
  events.foldl (linkStep env) (LanLinkProvider.init false, [])

/-- How often `onConnectionReceived(link)` was emitted in a trace. -/
def emitCount (link : LinkPtr) (trace : List Effect) : Nat :=
  trace.countP (fun e => e == Effect.onConnectionReceived link)

/-- How often `reset` was called on `link` in a trace. -/
def resetCount (link : LinkPtr) (trace : List Effect) : Nat :=
  trace.countP (fun e =>
    match e with
    | Effect.reset l _ => l == link
    | _ => false)

/-! ## Sample inputs -/

/-- A stand-in for `NetworkPacket::unserialize` on records of one byte and a line
feed: byte 0 is malformed, byte 1 a packet of another type, byte 255 the
identity packet of device `peer255` without a `tcpPort`, any other byte `b` the
identity packet of device `peer<b>` listening on port `1714 + b`. -/
def sampleUnserialize : QByteArray → Option NetworkPacket
  | [b, nl] =>
    if nl ≠ 10 then none
    else if b = 0 then none
    else if b = 1 then some { type := "kdeconnect.pair", deviceId := none, tcpPort := none }
    else if b = 255 then
      some { type := "kdeconnect.identity", deviceId := some "peer255", tcpPort := none }
    else some { type := "kdeconnect.identity", deviceId := some ("peer" ++ toString b),
                tcpPort := some (1714 + (b : Int)) }
  | _ => none

/-- A stand-in for `NetworkPacket::serialize` that keeps the type and the port
of a packet, in the records `sampleUnserialize` reads: byte 1 for a packet of
another type, byte 255 for an identity packet without `tcpPort`, byte
`tcpPort - 1714` for one with it. -/
def sampleSerialize (np : NetworkPacket) : QByteArray :=
  if np.type ≠ "kdeconnect.identity" then [1, 10]
  else
    match np.tcpPort with
    | none => [255, 10]
    | some port => [(port - 1714).toNat, 10]

/-- A local device with no paired peers and the port range 1716-1764. -/
def sampleEnv : Env :=
  { deviceId := "local", trustedDevices := [], MIN_TCP_PORT := 1716, MAX_TCP_PORT := 1764,
    PACKET_TYPE_IDENTITY := "kdeconnect.identity", unserialize := sampleUnserialize,
    serialize := sampleSerialize }

/-- The certificate of sample peer `i`, issued to its device id. -/
def peerCertificate (i : Nat) : QSslCertificate :=
  { subjectDisplayName := "peer" ++ toString i, der := i }

/-- The TLS socket of sample peer `i`. -/
def peerSocket (i : Nat) : QSslSocket :=
  { ptr := i, peerCertificate := peerCertificate i }

/-- The device information of sample peer `i`. -/
def peerInfo (i : Nat) : DeviceInfo :=
  { id := "peer" ++ toString i, certificate := peerCertificate i }

/-- Sample peer `i` completes TLS and is handed to `addLink`. -/
def peerEvent (i : Nat) : LinkEvent :=
  LinkEvent.addLink (peerSocket i) (peerInfo i)

/-- The identity datagram of sample peer `i + 2`, sent from 192.168.0.(i + 2). -/
def peerDatagram (i : Nat) : Datagram :=
  { sender := 3232235520 + (i + 2), data := [i + 2, 10] }

/-- The bookkeeping that ties `m_links` to the trace: every registered link
was allocated (its address is below `nextLink`), no address from `nextLink`
on occurs in an emission or a `reset`, and every registered link was announced
once at registration and once more per `reset`. -/
def LinkInv (st : LanLinkProvider × List Effect) : Prop :=
  (∀ p ∈ st.1.m_links, p.2.ptr < st.1.nextLink) ∧
  (∀ l, st.1.nextLink ≤ l → emitCount l st.2 = 0 ∧ resetCount l st.2 = 0) ∧
  (∀ p ∈ st.1.m_links, emitCount p.2.ptr st.2 = 1 + resetCount p.2.ptr st.2)

end LanLinkProvider

/-! ## Facts about `QMap` -/

namespace QMap

variable {K V : Type} [DecidableEq K]

theorem find_remove_self (m : QMap K V) (k : K) : (m.remove k).find k = none := by
  induction m with
  | nil => simp [remove, find]
  | cons p m ih =>
    obtain ⟨k1, v1⟩ := p
    by_cases h : k1 = k
    · simp [remove, h, ih]
    · simp [remove, find, h, ih]

theorem size_remove_le (m : QMap K V) (k : K) : (m.remove k).size ≤ m.size := by
  induction m with
  | nil => simp [remove]
  | cons p m ih =>
    obtain ⟨k1, v1⟩ := p
    simp only [size] at ih
    by_cases hk : k1 = k
    · simp only [remove, hk, if_true, size, List.length_cons]
      omega
    · simp only [remove, hk, if_false, size, List.length_cons]
      omega

theorem mem_of_find (m : QMap K V) (k : K) (v : V) (h : m.find k = some v) : (k, v) ∈ m := by
  induction m with
  | nil => simp [find] at h
  | cons p m ih =>
    obtain ⟨k1, v1⟩ := p
    by_cases hk : k1 = k
    · simp only [find, hk, if_true, Option.some.injEq] at h
      simp [hk, h]
    · simp only [find, hk, if_false] at h
      exact List.mem_cons_of_mem _ (ih h)

theorem mem_of_mem_remove (m : QMap K V) (k : K) (p : K × V) (h : p ∈ m.remove k) : p ∈ m := by
  induction m with
  | nil => simp [remove] at h
  | cons q m ih =>
    obtain ⟨k1, v1⟩ := q
    by_cases hk : k1 = k
    · simp only [remove, hk, if_true] at h
      exact List.mem_cons_of_mem _ (ih h)
    · simp only [remove, hk, if_false, List.mem_cons] at h
      rcases h with h | h
      · simp [h]
      · exact List.mem_cons_of_mem _ (ih h)

theorem mem_of_mem_insert (m : QMap K V) (k : K) (v : V) (p : K × V) (h : p ∈ m.insert k v) :
    p = (k, v) ∨ p ∈ m := by
  induction m with
  | nil => simpa [insert] using h
  | cons q m ih =>
    obtain ⟨k1, v1⟩ := q
    by_cases hk : k1 = k
    · simp only [insert, hk, if_true, List.mem_cons] at h
      rcases h with h | h
      · exact Or.inl h
      · exact Or.inr (List.mem_cons_of_mem _ h)
    · simp only [insert, hk, if_false, List.mem_cons] at h
      rcases h with h | h
      · exact Or.inr (by simp [h])
      · rcases ih h with h2 | h2
        · exact Or.inl h2
        · exact Or.inr (List.mem_cons_of_mem _ h2)

theorem find_remove_of_ne (m : QMap K V) (k other : K) (h : other ≠ k) :
    (m.remove k).find other = m.find other := by
  induction m with
  | nil => simp [remove]
  | cons p m ih =>
    obtain ⟨k1, v1⟩ := p
    by_cases hk : k1 = k
    · have hne : ¬ k1 = other := fun e => h (e.symm.trans hk)
      simp only [remove, find, if_pos hk, if_neg hne, ih]
    · by_cases ho : k1 = other
      · simp only [remove, find, if_neg hk, if_pos ho]
      · simp only [remove, find, if_neg hk, if_neg ho, ih]

end QMap

namespace LanLinkProvider

/-! ## `addLink` -/

/-- C1: when the subject display name of the peer certificate differs from
`deviceInfo.id`, `addLink` only disconnects the socket: the provider (so
`m_links`) is unchanged, no link is reset and `onConnectionReceived` is not
emitted. Hence whenever `addLink` changes `m_links` or emits
`onConnectionReceived`, the certificate name equals the device id. -/
theorem addLink_rejects_certificate_name_mismatch (env : Env) (self : LanLinkProvider)
    (socket : QSslSocket) (deviceInfo : DeviceInfo) :
    (socket.peerCertificate.subjectDisplayName ≠ deviceInfo.id →
      (addLink env self socket deviceInfo).2 = [Effect.disconnectFromHost socket.ptr] ∧
      (addLink env self socket deviceInfo).1 = self ∧
      (addLink env self socket deviceInfo).1.m_links = self.m_links ∧
      (∀ link s, Effect.reset link s ∉ (addLink env self socket deviceInfo).2) ∧
      (∀ link, Effect.onConnectionReceived link ∉ (addLink env self socket deviceInfo).2)) ∧
    (((addLink env self socket deviceInfo).1.m_links ≠ self.m_links ∨
        ∃ link, Effect.onConnectionReceived link ∈ (addLink env self socket deviceInfo).2) →
      socket.peerCertificate.subjectDisplayName = deviceInfo.id) := by
  constructor
  · intro h
    have h2 : deviceInfo.id ≠ socket.peerCertificate.subjectDisplayName := fun e => h e.symm
    simp [addLink, h2]
  · intro h
    by_contra hne
    have h2 : deviceInfo.id ≠ socket.peerCertificate.subjectDisplayName := fun e => hne e.symm
    simp [addLink, h2] at h

/-- A name mismatch at a concrete input: the identity says `peer1`, the
certificate `peer2`; and a registration whose names agree. -/
theorem addLink_rejects_certificate_name_mismatch_witness :
    addLink sampleEnv (LanLinkProvider.init false) (peerSocket 2) (peerInfo 1) =
      (LanLinkProvider.init false, [Effect.disconnectFromHost 2]) ∧
    (peerSocket 1).peerCertificate.subjectDisplayName = (peerInfo 1).id := by
  have h := addLink_rejects_certificate_name_mismatch sampleEnv (LanLinkProvider.init false)
    (peerSocket 1) (peerInfo 1)
  exact ⟨by decide, h.2 (Or.inl (by decide))⟩

/-- C2: with a link for `deviceInfo.id` already in `m_links` (and the
certificate name matching the id): if the link's recorded certificate differs
from the new one, `m_links` is unchanged, no `reset` is called and
`onConnectionReceived` is not emitted; if it is equal, `reset(socket)` is called
on the existing link and `m_links`, so its key set, is unchanged. -/
theorem addLink_existing_link (env : Env) (self : LanLinkProvider) (socket : QSslSocket)
    (deviceInfo : DeviceInfo) (deviceLink : LanDeviceLink)
    (hname : socket.peerCertificate.subjectDisplayName = deviceInfo.id)
    (hfind : self.m_links.find deviceInfo.id = some deviceLink) :
    (deviceLink.deviceInfo.certificate ≠ deviceInfo.certificate →
      (addLink env self socket deviceInfo).1.m_links = self.m_links ∧
      (∀ link s, Effect.reset link s ∉ (addLink env self socket deviceInfo).2) ∧
      (∀ link, Effect.onConnectionReceived link ∉ (addLink env self socket deviceInfo).2)) ∧
    (deviceLink.deviceInfo.certificate = deviceInfo.certificate →
      Effect.reset deviceLink.ptr socket.ptr ∈ (addLink env self socket deviceInfo).2 ∧
      (addLink env self socket deviceInfo).1.m_links = self.m_links ∧
      (addLink env self socket deviceInfo).1.m_links.keys = self.m_links.keys) := by
  constructor
  · intro h
    simp [addLink, hname, hfind, h]
  · intro h
    simp [addLink, hname, hfind, h]

/-- A forged certificate for `peer1` (same name, other content) is refused;
the genuine one resets link 0. -/
theorem addLink_existing_link_witness :
    (addLink sampleEnv (linkRun sampleEnv [peerEvent 1]).1
        { ptr := 7, peerCertificate := { subjectDisplayName := "peer1", der := 99 } }
        { id := "peer1", certificate := { subjectDisplayName := "peer1", der := 99 } }).1.m_links =
      (linkRun sampleEnv [peerEvent 1]).1.m_links ∧
    Effect.reset 0 8 ∈
      (addLink sampleEnv (linkRun sampleEnv [peerEvent 1]).1
        { ptr := 8, peerCertificate := peerCertificate 1 } (peerInfo 1)).2 := by
  have h1 := addLink_existing_link sampleEnv (linkRun sampleEnv [peerEvent 1]).1
    { ptr := 7, peerCertificate := { subjectDisplayName := "peer1", der := 99 } }
    { id := "peer1", certificate := { subjectDisplayName := "peer1", der := 99 } }
    { ptr := 0, deviceInfo := peerInfo 1 } (by decide) (by decide)
  have h2 := addLink_existing_link sampleEnv (linkRun sampleEnv [peerEvent 1]).1
    { ptr := 8, peerCertificate := peerCertificate 1 } (peerInfo 1)
    { ptr := 0, deviceInfo := peerInfo 1 } (by decide) (by decide)
  exact ⟨(h1.1 (by decide)).1, (h2.2 (by decide)).1⟩

set_option maxRecDepth 100000 in
/-- C3: with no paired peer, 43 distinct unpaired peers handed to `addLink` are
all registered: `m_links` holds 43 entries, more than
`MAX_UNPAIRED_CONNECTIONS` plus the number of trusted peers (42 + 0). With 42
unpaired links live the next unpaired peer is registered and announced, its
socket is not disconnected; only with 43 live is a further one refused. -/
theorem addLink_unpaired_cap_off_by_one :
    (linkRun sampleEnv ((List.range 43).map peerEvent)).1.m_links.size = 43 ∧
    MAX_UNPAIRED_CONNECTIONS + sampleEnv.trustedDevices.length = 42 ∧
    (linkRun sampleEnv ((List.range 42).map peerEvent)).1.m_links.size = 42 ∧
    (addLink sampleEnv (linkRun sampleEnv ((List.range 42).map peerEvent)).1
        (peerSocket 42) (peerInfo 42)).1.m_links.size = 43 ∧
    Effect.disconnectFromHost 42 ∉
      (addLink sampleEnv (linkRun sampleEnv ((List.range 42).map peerEvent)).1
        (peerSocket 42) (peerInfo 42)).2 ∧
    Effect.onConnectionReceived 42 ∈
      (addLink sampleEnv (linkRun sampleEnv ((List.range 42).map peerEvent)).1
        (peerSocket 42) (peerInfo 42)).2 ∧
    (addLink sampleEnv (linkRun sampleEnv ((List.range 43).map peerEvent)).1
        (peerSocket 43) (peerInfo 43)).1.m_links.size = 43 ∧
    Effect.disconnectFromHost 43 ∈
      (addLink sampleEnv (linkRun sampleEnv ((List.range 43).map peerEvent)).1
        (peerSocket 43) (peerInfo 43)).2 := by
  decide

set_option maxRecDepth 100000 in
/-- C4: 43 identity datagrams of distinct foreign peers, received on an empty
table, leave 43 records in `m_receivedIdentityPackets`, more than
`MAX_REMEMBERED_IDENTITY_PACKETS` (42). A datagram, or an identity line on an
accepted socket, that arrives while the table holds 42 records is recorded as
the 43rd; only with 43 records is it dropped. -/
theorem receivedIdentityPackets_cap_off_by_one :
    (udpBroadcastReceived sampleEnv (LanLinkProvider.init false)
      ((List.range 43).map peerDatagram)).1.m_receivedIdentityPackets.size = 43 ∧
    MAX_REMEMBERED_IDENTITY_PACKETS = 42 ∧
    (udpBroadcastReceived sampleEnv (LanLinkProvider.init false)
      ((List.range 42).map peerDatagram)).1.m_receivedIdentityPackets.size = 42 ∧
    (udpBroadcastReceived sampleEnv
      (udpBroadcastReceived sampleEnv (LanLinkProvider.init false)
        ((List.range 42).map peerDatagram)).1
      [peerDatagram 42]).1.m_receivedIdentityPackets.size = 43 ∧
    (dataReceived sampleEnv
      (udpBroadcastReceived sampleEnv (LanLinkProvider.init false)
        ((List.range 42).map peerDatagram)).1
      100 [50, 10]).1.m_receivedIdentityPackets.size = 43 ∧
    (udpBroadcastReceived sampleEnv
      (udpBroadcastReceived sampleEnv (LanLinkProvider.init false)
        ((List.range 43).map peerDatagram)).1
      [peerDatagram 43]).1.m_receivedIdentityPackets.size = 43 := by
  decide

/-! ## Announcements of a link -/

theorem emitCount_append (l : LinkPtr) (t u : List Effect) :
    emitCount l (t ++ u) = emitCount l t + emitCount l u := by
  simp [emitCount, List.countP_append]

theorem resetCount_append (l : LinkPtr) (t u : List Effect) :
    resetCount l (t ++ u) = resetCount l t + resetCount l u := by
  simp [resetCount, List.countP_append]

theorem linkInv_init : LinkInv (LanLinkProvider.init false, []) := by
  simp [LinkInv, LanLinkProvider.init, LanLinkProvider.create, emitCount, resetCount]

theorem addLink_of_name_ne (env : Env) (self : LanLinkProvider) (socket : QSslSocket)
    (deviceInfo : DeviceInfo) (h : deviceInfo.id ≠ socket.peerCertificate.subjectDisplayName) :
    addLink env self socket deviceInfo = (self, [Effect.disconnectFromHost socket.ptr]) := by
  simp [addLink, h]

theorem addLink_of_certificate_ne (env : Env) (self : LanLinkProvider) (socket : QSslSocket)
    (deviceInfo : DeviceInfo) (deviceLink : LanDeviceLink)
    (h : deviceInfo.id = socket.peerCertificate.subjectDisplayName)
    (hfind : self.m_links.find deviceInfo.id = some deviceLink)
    (hcert : deviceLink.deviceInfo.certificate ≠ deviceInfo.certificate) :
    addLink env self socket deviceInfo =
      (self, [Effect.disconnectSignal socket.ptr Signal.disconnected Slot.deleteLater]) := by
  simp [addLink, h, hfind, hcert]
  simp [← h, hfind, hcert]

theorem addLink_of_certificate_eq (env : Env) (self : LanLinkProvider) (socket : QSslSocket)
    (deviceInfo : DeviceInfo) (deviceLink : LanDeviceLink)
    (h : deviceInfo.id = socket.peerCertificate.subjectDisplayName)
    (hfind : self.m_links.find deviceInfo.id = some deviceLink)
    (hcert : deviceLink.deviceInfo.certificate = deviceInfo.certificate) :
    addLink env self socket deviceInfo =
      (self,
       [Effect.disconnectSignal socket.ptr Signal.disconnected Slot.deleteLater,
        Effect.reset deviceLink.ptr socket.ptr,
        Effect.onConnectionReceived deviceLink.ptr]) := by
  simp [addLink, h]
  simp [← h, hfind, hcert]

theorem addLink_of_cap (env : Env) (self : LanLinkProvider) (socket : QSslSocket)
    (deviceInfo : DeviceInfo)
    (h : deviceInfo.id = socket.peerCertificate.subjectDisplayName)
    (hfind : self.m_links.find deviceInfo.id = none)
    (htrust : deviceInfo.id ∉ env.trustedDevices)
    (hsize : self.m_links.size > MAX_UNPAIRED_CONNECTIONS) :
    addLink env self socket deviceInfo =
      ({ self with nextLink := self.nextLink + 1 },
       [Effect.disconnectSignal socket.ptr Signal.disconnected Slot.deleteLater,
        Effect.newLanDeviceLink self.nextLink deviceInfo socket.ptr,
        Effect.disconnectSignal socket.ptr Signal.disconnected Slot.deleteLater,
        Effect.disconnectFromHost socket.ptr,
        Effect.deleteLater socket.ptr]) := by
  simp [addLink, h]
  simp [← h, hfind, htrust]
  exact hsize

theorem addLink_of_new (env : Env) (self : LanLinkProvider) (socket : QSslSocket)
    (deviceInfo : DeviceInfo)
    (h : deviceInfo.id = socket.peerCertificate.subjectDisplayName)
    (hfind : self.m_links.find deviceInfo.id = none)
    (hok : deviceInfo.id ∈ env.trustedDevices ∨ self.m_links.size ≤ MAX_UNPAIRED_CONNECTIONS) :
    addLink env self socket deviceInfo =
      ({ self with
          nextLink := self.nextLink + 1
          m_links := self.m_links.insert deviceInfo.id
            { ptr := self.nextLink, deviceInfo := deviceInfo } },
       [Effect.disconnectSignal socket.ptr Signal.disconnected Slot.deleteLater,
        Effect.newLanDeviceLink self.nextLink deviceInfo socket.ptr,
        Effect.disconnectSignal socket.ptr Signal.disconnected Slot.deleteLater,
        Effect.onConnectionReceived self.nextLink]) := by
  simp [addLink, h]
  simp [← h, hfind]
  intro h1
  rcases hok with h3 | h3
  · exact absurd h3 h1
  · exact h3

theorem linkInv_neutral (st : LanLinkProvider × List Effect) (self1 : LanLinkProvider)
    (es : List Effect) (h : LinkInv st)
    (hsub : ∀ p ∈ self1.m_links, p ∈ st.1.m_links)
    (hnext : st.1.nextLink ≤ self1.nextLink)
    (he : ∀ l, emitCount l es = 0) (hr : ∀ l, resetCount l es = 0) :
    LinkInv (self1, st.2 ++ es) := by
  obtain ⟨ha, hb, hc⟩ := h
  refine ⟨?_, ?_, ?_⟩
  · intro p hp
    exact Nat.lt_of_lt_of_le (ha p (hsub p hp)) hnext
  · intro l hl
    dsimp only at hl ⊢
    have := hb l (Nat.le_trans hnext hl)
    rw [emitCount_append, resetCount_append, he, hr]
    simpa using this
  · intro p hp
    have := hc p (hsub p hp)
    dsimp only at hp ⊢
    rw [emitCount_append, resetCount_append, he, hr]
    simpa using this

theorem linkInv_addLink (env : Env) (st : LanLinkProvider × List Effect) (socket : QSslSocket)
    (deviceInfo : DeviceInfo) (h : LinkInv st) :
    LinkInv ((addLink env st.1 socket deviceInfo).1,
      st.2 ++ (addLink env st.1 socket deviceInfo).2) := by
  by_cases hname : deviceInfo.id = socket.peerCertificate.subjectDisplayName
  swap
  · rw [addLink_of_name_ne env st.1 socket deviceInfo hname]
    exact linkInv_neutral st _ _ h (fun p hp => hp) (le_refl _)
      (fun l => by simp [emitCount]) (fun l => by simp [resetCount])
  · cases hfind : st.1.m_links.find deviceInfo.id with
    | some deviceLink =>
      by_cases hcert : deviceLink.deviceInfo.certificate = deviceInfo.certificate
      swap
      · rw [addLink_of_certificate_ne env st.1 socket deviceInfo deviceLink hname hfind hcert]
        exact linkInv_neutral st _ _ h (fun p hp => hp) (le_refl _)
          (fun l => by simp [emitCount]) (fun l => by simp [resetCount])
      · rw [addLink_of_certificate_eq env st.1 socket deviceInfo deviceLink hname hfind hcert]
        obtain ⟨ha, hb, hc⟩ := h
        have hlt : deviceLink.ptr < st.1.nextLink := ha _ (QMap.mem_of_find _ _ _ hfind)
        refine ⟨ha, ?_, ?_⟩
        · intro l hl
          dsimp only at hl ⊢
          have := hb l hl
          have hne : deviceLink.ptr ≠ l := Nat.ne_of_lt (Nat.lt_of_lt_of_le hlt hl)
          have hne2 : l ≠ deviceLink.ptr := fun e => hne e.symm
          simpa [emitCount_append, resetCount_append, emitCount, resetCount, hne, hne2] using this
        · intro p hp
          have := hc p hp
          dsimp only at hp ⊢
          by_cases hp2 : deviceLink.ptr = p.2.ptr
          · simp only [emitCount_append, resetCount_append] at this ⊢
            simp [emitCount, resetCount, hp2] at this ⊢
            omega
          · have hp3 : p.2.ptr ≠ deviceLink.ptr := fun e => hp2 e.symm
            simpa [emitCount_append, resetCount_append, emitCount, resetCount, hp2, hp3]
              using this
    | none =>
      by_cases hcap : deviceInfo.id ∉ env.trustedDevices ∧
          st.1.m_links.size > MAX_UNPAIRED_CONNECTIONS
      · rw [addLink_of_cap env st.1 socket deviceInfo hname hfind hcap.1 hcap.2]
        exact linkInv_neutral st _ _ h (fun p hp => hp) (Nat.le_succ _)
          (fun l => by simp [emitCount]) (fun l => by simp [resetCount])
      · have hok : deviceInfo.id ∈ env.trustedDevices ∨
            st.1.m_links.size ≤ MAX_UNPAIRED_CONNECTIONS := by
          by_cases ht : deviceInfo.id ∈ env.trustedDevices
          · exact Or.inl ht
          · exact Or.inr (Nat.le_of_not_lt (fun hgt => hcap ⟨ht, hgt⟩))
        rw [addLink_of_new env st.1 socket deviceInfo hname hfind hok]
        obtain ⟨ha, hb, hc⟩ := h
        refine ⟨?_, ?_, ?_⟩
        · intro p hp
          dsimp only at hp ⊢
          rcases QMap.mem_of_mem_insert _ _ _ _ hp with h1 | h1
          · subst h1
            simp
          · exact Nat.lt_succ_of_lt (ha p h1)
        · intro l hl
          dsimp only at hl ⊢
          have := hb l (Nat.le_of_succ_le hl)
          have hne : st.1.nextLink ≠ l := Nat.ne_of_lt hl
          have hne2 : l ≠ st.1.nextLink := fun e => hne e.symm
          simpa [emitCount_append, resetCount_append, emitCount, resetCount, hne, hne2] using this
        · intro p hp
          dsimp only at hp ⊢
          rcases QMap.mem_of_mem_insert _ _ _ _ hp with h1 | h1
          · subst h1
            have := hb st.1.nextLink (le_refl _)
            simp only [emitCount_append, resetCount_append, this.1, this.2]
            simp [emitCount, resetCount]
          · have hlt := ha p h1
            have := hc p h1
            have hne2 : p.2.ptr ≠ st.1.nextLink := Nat.ne_of_lt hlt
            have hne : st.1.nextLink ≠ p.2.ptr := fun e => hne2 e.symm
            simpa [emitCount_append, resetCount_append, emitCount, resetCount, hne, hne2]
              using this

theorem linkInv_onLinkDestroyed (st : LanLinkProvider × List Effect) (deviceId : QString)
    (oldPtr : LinkPtr) (h : LinkInv st) :
    LinkInv ((onLinkDestroyed st.1 deviceId oldPtr).1,
      st.2 ++ (onLinkDestroyed st.1 deviceId oldPtr).2) := by
  apply linkInv_neutral st _ _ h
  · intro p hp
    exact QMap.mem_of_mem_remove _ _ _ hp
  · exact le_refl _
  · intro l
    simp only [onLinkDestroyed]
    split <;> simp [emitCount]
  · intro l
    simp only [onLinkDestroyed]
    split <;> simp [resetCount]

theorem linkInv_foldl (env : Env) (events : List LinkEvent) (st : LanLinkProvider × List Effect)
    (h : LinkInv st) : LinkInv (events.foldl (linkStep env) st) := by
  induction events generalizing st with
  | nil => simpa using h
  | cons ev events ih =>
    simp only [List.foldl_cons]
    apply ih
    cases ev with
    | addLink socket deviceInfo => exact linkInv_addLink env st socket deviceInfo h
    | onLinkDestroyed deviceId oldPtr => exact linkInv_onLinkDestroyed st deviceId oldPtr h

/-- C5, as the code has it: after every sequence of `addLink` and
`onLinkDestroyed` calls, every link held in `m_links` has been announced by
`onConnectionReceived` once for its registration and once more for every
`reset` called on it, so at least once. -/
theorem onConnectionReceived_once_per_registration_and_reset (env : Env)
    (events : List LinkEvent) (deviceId : QString) (link : LanDeviceLink)
    (h : (linkRun env events).1.m_links.find deviceId = some link) :
    emitCount link.ptr (linkRun env events).2 = 1 + resetCount link.ptr (linkRun env events).2 ∧
    1 ≤ emitCount link.ptr (linkRun env events).2 := by
  have hinv := linkInv_foldl env events _ linkInv_init
  have := hinv.2.2 _ (QMap.mem_of_find _ _ _ h)
  have h2 : emitCount link.ptr (linkRun env events).2 =
      1 + resetCount link.ptr (linkRun env events).2 := this
  exact ⟨h2, by omega⟩

/-- A run with one registration and one reconnection of `peer1`. -/
theorem onConnectionReceived_once_per_registration_and_reset_witness :
    emitCount 0 (linkRun sampleEnv [peerEvent 1, peerEvent 1]).2 =
      1 + resetCount 0 (linkRun sampleEnv [peerEvent 1, peerEvent 1]).2 ∧
    1 ≤ emitCount 0 (linkRun sampleEnv [peerEvent 1, peerEvent 1]).2 :=
  onConnectionReceived_once_per_registration_and_reset sampleEnv [peerEvent 1, peerEvent 1]
    "peer1" { ptr := 0, deviceInfo := peerInfo 1 } (by decide)

/-- C5 fails as stated: `peer1` connects twice with the same certificate; the
second call resets link 0, which is still the link held in `m_links`, and
announces it a second time. -/
theorem onConnectionReceived_emitted_again_on_reset :
    (linkRun sampleEnv [peerEvent 1, peerEvent 1]).1.m_links.find "peer1" =
      some { ptr := 0, deviceInfo := peerInfo 1 } ∧
    (linkRun sampleEnv [peerEvent 1, peerEvent 1]).2.filter
        (fun e => e == Effect.onConnectionReceived 0 || e == Effect.reset 0 1) =
      [Effect.onConnectionReceived 0, Effect.reset 0 1, Effect.onConnectionReceived 0] ∧
    emitCount 0 (linkRun sampleEnv [peerEvent 1, peerEvent 1]).2 = 2 := by
  decide

/-! ## The UDP listener -/

theorem udpBroadcastReceived_append (env : Env) (self : LanLinkProvider)
    (xs ys : List Datagram) :
    udpBroadcastReceived env self (xs ++ ys) =
      ((udpBroadcastReceived env (udpBroadcastReceived env self xs).1 ys).1,
       (udpBroadcastReceived env self xs).2 ++
         (udpBroadcastReceived env (udpBroadcastReceived env self xs).1 ys).2) := by
  induction xs generalizing self with
  | nil => simp [udpBroadcastReceived]
  | cons d xs ih => simp [udpBroadcastReceived, ih, List.append_assoc]

/-- C6: a datagram that parses to a packet whose `deviceId` is the local one
leaves no trace, whatever its sender, its `tcpPort` and the size of the table:
the provider (table, link map, socket counter) is unchanged and no call is
made, so no socket is created and nothing is dialled; the loop over the
pending datagrams behaves as if that datagram had not been received. -/
theorem udpBroadcastReceived_ignores_own_identity (env : Env) (self : LanLinkProvider)
    (d : Datagram) (np : NetworkPacket)
    (hparse : env.unserialize d.data = some np)
    (hid : np.getDeviceId = env.deviceId) :
    udpDatagram env self d = (self, []) ∧
    udpBroadcastReceived env self [d] = (self, []) ∧
    (∀ (s : LanLinkProvider) (before after : List Datagram),
      udpBroadcastReceived env s (before ++ d :: after) =
        udpBroadcastReceived env s (before ++ after)) := by
  have h1 : ∀ s : LanLinkProvider, udpDatagram env s d = (s, []) := by
    intro s
    unfold udpDatagram
    split
    · rfl
    · simp [hparse, hid]
  refine ⟨h1 self, ?_, ?_⟩
  · simp [udpBroadcastReceived, h1]
  · intro s before after
    rw [udpBroadcastReceived_append, udpBroadcastReceived_append]
    simp [udpBroadcastReceived, h1]

/-- The local device is `peer5` and hears its own broadcast from 192.168.0.5,
between the datagrams of two other peers. -/
theorem udpBroadcastReceived_ignores_own_identity_witness :
    udpDatagram { sampleEnv with deviceId := "peer5" } (LanLinkProvider.init false)
        { sender := 3232235525, data := [5, 10] } = (LanLinkProvider.init false, []) ∧
    udpBroadcastReceived { sampleEnv with deviceId := "peer5" } (LanLinkProvider.init false)
        [peerDatagram 0, { sender := 3232235525, data := [5, 10] }, peerDatagram 1] =
      udpBroadcastReceived { sampleEnv with deviceId := "peer5" } (LanLinkProvider.init false)
        [peerDatagram 0, peerDatagram 1] := by
  have h := udpBroadcastReceived_ignores_own_identity { sampleEnv with deviceId := "peer5" }
    (LanLinkProvider.init false) { sender := 3232235525, data := [5, 10] }
    { type := "kdeconnect.identity", deviceId := some "peer5", tcpPort := some 1719 }
    (by decide) (by decide)
  exact ⟨h.1, h.2.2 (LanLinkProvider.init false) [peerDatagram 0] [peerDatagram 1]⟩

theorem sslErrors_fatal_foldl (errors : List SslError) (init : Bool) :
    errors.foldl (fun fatal error =>
      if error ≠ SslError.SelfSignedCertificate then true else fatal) init =
      (init || decide (∃ e ∈ errors, e ≠ SslError.SelfSignedCertificate)) := by
  induction errors generalizing init with
  | nil => simp
  | cons e errors ih =>
    simp only [List.foldl_cons, ih]
    by_cases h : e = SslError.SelfSignedCertificate
    · simp [h]
    · simp [h]

/-- C8: `sslErrors` disconnects the socket exactly when the list holds an
error other than `SelfSignedCertificate`; in that case the record of the socket
is taken out of the table (which then has no entry for it), and otherwise,
the empty list included, nothing is called and the provider is unchanged. -/
theorem sslErrors_fatal_iff_not_self_signed (self : LanLinkProvider) (socket : SocketPtr)
    (errors : List SslError) :
    (Effect.disconnectFromHost socket ∈ (sslErrors self socket errors).2 ↔
      ∃ e ∈ errors, e ≠ SslError.SelfSignedCertificate) ∧
    ((∃ e ∈ errors, e ≠ SslError.SelfSignedCertificate) →
      (sslErrors self socket errors).2 = [Effect.disconnectFromHost socket] ∧
      (sslErrors self socket errors).1.m_receivedIdentityPackets =
        self.m_receivedIdentityPackets.remove socket ∧
      (sslErrors self socket errors).1.m_receivedIdentityPackets.find socket = none) ∧
    ((∀ e ∈ errors, e = SslError.SelfSignedCertificate) →
      sslErrors self socket errors = (self, [])) := by
  by_cases h : ∃ e ∈ errors, e ≠ SslError.SelfSignedCertificate
  · have hres : sslErrors self socket errors =
        ({ self with m_receivedIdentityPackets := self.m_receivedIdentityPackets.remove socket },
         [Effect.disconnectFromHost socket]) := by
      unfold sslErrors
      simp only [sslErrors_fatal_foldl]
      rw [if_pos (by simpa using h)]
    rw [hres]
    refine ⟨⟨fun _ => h, fun _ => by simp⟩, fun _ => ⟨rfl, rfl, QMap.find_remove_self _ _⟩, ?_⟩
    intro hall
    obtain ⟨e, he, hne⟩ := h
    exact absurd (hall e he) hne
  · have hres : sslErrors self socket errors = (self, []) := by
      unfold sslErrors
      simp only [sslErrors_fatal_foldl]
      rw [if_neg (by simpa using h)]
    rw [hres]
    exact ⟨⟨fun hm => by simp at hm, fun hx => absurd hx h⟩, fun hx => absurd hx h, fun _ => rfl⟩

/-- A host-name mismatch after a self-signed error tears socket 0 down; two
self-signed errors do not. -/
theorem sslErrors_fatal_iff_not_self_signed_witness :
    (sslErrors (udpDatagram sampleEnv (LanLinkProvider.init false) (peerDatagram 0)).1 0
        [SslError.SelfSignedCertificate, SslError.HostNameMismatch]).1.m_receivedIdentityPackets.find
        0 = none ∧
    sslErrors (udpDatagram sampleEnv (LanLinkProvider.init false) (peerDatagram 0)).1 0
        [SslError.SelfSignedCertificate, SslError.SelfSignedCertificate] =
      ((udpDatagram sampleEnv (LanLinkProvider.init false) (peerDatagram 0)).1, []) := by
  have h1 := sslErrors_fatal_iff_not_self_signed
    (udpDatagram sampleEnv (LanLinkProvider.init false) (peerDatagram 0)).1 0
    [SslError.SelfSignedCertificate, SslError.HostNameMismatch]
  have h2 := sslErrors_fatal_iff_not_self_signed
    (udpDatagram sampleEnv (LanLinkProvider.init false) (peerDatagram 0)).1 0
    [SslError.SelfSignedCertificate, SslError.SelfSignedCertificate]
  exact ⟨(h1.2.1 (by decide)).2.2, h2.2.2 (by decide)⟩

/-! ## The pending records -/

/-- Promotion takes the record out: after `encrypted` the table has no entry
for the socket. -/
theorem encrypted_removes_record (env : Env) (self : LanLinkProvider) (socket : QSslSocket)
    (r : LanLinkProvider × List Effect) (h : encrypted env self socket = some r) :
    r.1.m_receivedIdentityPackets.find socket.ptr = none := by
  unfold encrypted at h
  split at h
  · simp at h
  · simp only [Option.some.injEq] at h
    subst h
    exact QMap.find_remove_self _ _

/-- C9: an accepted socket whose peer sent its identity but did not finish TLS
within the 1000 ms of the timer armed in `newConnection`. Socket 0 is accepted,
`dataReceived` stores the identity of the unpaired `peer2` under it (and does
not connect `sslErrors`), the timer fires and `disconnectFromHost` is called:
the table still holds the record of socket 0, and the provider is the one
before the timeout. -/
theorem pending_record_survives_identity_timeout :
    (newConnection (LanLinkProvider.init false) 1).2 =
      [Effect.configureSocket 0,
       Effect.connectSignal 0 Signal.disconnected Slot.deleteLater,
       Effect.connectSignal 0 Signal.readyRead Slot.dataReceived,
       Effect.connectSignal 0 Signal.encrypted Slot.timerDeleteLater,
       Effect.connectSignal 0 Signal.timeout Slot.timeoutLambda,
       Effect.startTimer 0 1000] ∧
    (dataReceived sampleEnv (newConnection (LanLinkProvider.init false) 1).1 0 [2, 10]).2 =
      [Effect.disconnectSignal 0 Signal.readyRead Slot.dataReceived,
       Effect.configureSslSocket 0 "peer2" false,
       Effect.connectSignal 0 Signal.encrypted Slot.encrypted,
       Effect.startClientEncryption 0] ∧
    timeoutLambda
        (dataReceived sampleEnv (newConnection (LanLinkProvider.init false) 1).1 0 [2, 10]).1 0 =
      ((dataReceived sampleEnv (newConnection (LanLinkProvider.init false) 1).1 0 [2, 10]).1,
       [Effect.disconnectFromHost 0]) ∧
    (timeoutLambda
        (dataReceived sampleEnv (newConnection (LanLinkProvider.init false) 1).1 0 [2, 10]).1
        0).1.m_receivedIdentityPackets.find 0 =
      some { np := some { type := "kdeconnect.identity", deviceId := some "peer2",
                          tcpPort := some 1716 },
             sender := none } := by
  decide

/-! ## The identity line of an accepted socket -/

/-- C10, as the code has it: `dataReceived` calls `disconnectFromHost` exactly
when more than 8192 bytes are buffered, and then does nothing else (no TLS
handshake, no record). When the line does not parse, or parses to a packet of
another type, the handler makes no call at all and leaves the provider
unchanged: no TLS handshake is started and no record is created, and the socket
is not disconnected. -/
theorem dataReceived_hostile_identity (env : Env) (self : LanLinkProvider) (socket : SocketPtr)
    (buffer : QByteArray) :
    (Effect.disconnectFromHost socket ∈ (dataReceived env self socket buffer).2 ↔
      buffer.length > 8192) ∧
    (buffer.length > 8192 →
      dataReceived env self socket buffer = (self, [Effect.disconnectFromHost socket])) ∧
    (buffer.length ≤ 8192 →
      (env.unserialize (readLine buffer) = none ∨
        ∃ np, env.unserialize (readLine buffer) = some np ∧
          np.type ≠ env.PACKET_TYPE_IDENTITY) →
      dataReceived env self socket buffer = (self, [])) := by
  by_cases hlen : buffer.length > 8192
  · have hres : dataReceived env self socket buffer =
        (self, [Effect.disconnectFromHost socket]) := by
      unfold dataReceived
      rw [if_pos hlen]
    rw [hres]
    exact ⟨⟨fun _ => hlen, fun _ => by simp⟩, fun _ => rfl, fun hle => by omega⟩
  · refine ⟨⟨?_, fun h => absurd h hlen⟩, fun h => absurd h hlen, ?_⟩
    · unfold dataReceived
      rw [if_neg hlen]
      by_cases hline : (!canReadLine buffer) = true
      · rw [if_pos hline]
        simp
      · rw [if_neg hline]
        cases hparse : env.unserialize (readLine buffer) with
        | none => simp [hparse]
        | some np =>
          by_cases htype : np.type ≠ env.PACKET_TYPE_IDENTITY
          · simp [hparse, htype]
          · by_cases hcap : self.m_receivedIdentityPackets.size >
                MAX_REMEMBERED_IDENTITY_PACKETS
            · simp [hparse, htype, hcap]
            · by_cases htrust : np.getDeviceId ∈ env.trustedDevices
              · simp [hparse, htype, hcap, htrust]
              · simp [hparse, htype, hcap, htrust]
    · intro _ hbad
      unfold dataReceived
      rw [if_neg hlen]
      split
      · rfl
      · rcases hbad with hnone | ⟨np, hsome, htype⟩
        · simp [hnone]
        · simp [hsome, htype]

/-- C10 fails as stated: on socket 0 a malformed line (byte 0) and a
well-formed packet of another type (byte 1) are both consumed without any
call: the socket is not disconnected. -/
theorem dataReceived_bad_line_not_disconnected :
    canReadLine [0, 10] = true ∧
    sampleEnv.unserialize (readLine [0, 10]) = none ∧
    dataReceived sampleEnv (LanLinkProvider.init false) 0 [0, 10] =
      (LanLinkProvider.init false, []) ∧
    Effect.disconnectFromHost 0 ∉
      (dataReceived sampleEnv (LanLinkProvider.init false) 0 [0, 10]).2 ∧
    sampleEnv.unserialize (readLine [1, 10]) =
      some { type := "kdeconnect.pair", deviceId := none, tcpPort := none } ∧
    Effect.disconnectFromHost 0 ∉
      (dataReceived sampleEnv (LanLinkProvider.init false) 0 [1, 10]).2 := by
  decide

/-- A line of 8193 bytes closes socket 0; a line of 8192 bytes does not: it is
read, fails to parse and is dropped without a call. -/
theorem dataReceived_hostile_identity_witness :
    dataReceived sampleEnv (LanLinkProvider.init false) 0 (List.replicate 8192 65 ++ [10]) =
      (LanLinkProvider.init false, [Effect.disconnectFromHost 0]) ∧
    Effect.disconnectFromHost 0 ∉
      (dataReceived sampleEnv (LanLinkProvider.init false) 0
        (List.replicate 8191 65 ++ [10])).2 := by
  have h1 := dataReceived_hostile_identity sampleEnv (LanLinkProvider.init false) 0
    (List.replicate 8192 65 ++ [10])
  have h2 := dataReceived_hostile_identity sampleEnv (LanLinkProvider.init false) 0
    (List.replicate 8191 65 ++ [10])
  have hlong : (List.replicate 8192 65 ++ [10] : QByteArray).length > 8192 := by
    simp only [List.length_append, List.length_replicate, List.length_singleton]
    omega
  refine ⟨h1.2.1 hlong, fun hmem => ?_⟩
  have hlen := h2.1.1 hmem
  simp only [List.length_append, List.length_replicate, List.length_singleton] at hlen
  omega

/-! ## The reverse-connection fallbacks -/

/-- Fallback 1 sends the local identity with `tcpPort` set to `m_tcpPort` to the
recorded sender on the broadcast port, and leaves no record for the socket. -/
theorem connectError_reinvitation (env : Env) (self : LanLinkProvider) (socket : SocketPtr) :
    (connectError env self socket).2 =
      [Effect.writeDatagram (env.serialize (env.identityPacket.setTcpPort self.m_tcpPort))
         (recordedSender self socket) self.m_udpBroadcastPort,
       Effect.deleteLater socket] ∧
    (connectError env self socket).1.m_receivedIdentityPackets.find socket = none :=
  ⟨rfl, QMap.find_remove_self _ _⟩

/-- Fallback 2 sends the packet it wrote to the socket, the local identity as
`toIdentityPacket` built it, to the recorded sender on the broadcast port, and
leaves no record for the socket. -/
theorem tcpSocketConnected_reinvitation (env : Env) (self : LanLinkProvider)
    (socket : SocketPtr) (pending : PendingConnection) (receivedPacket : NetworkPacket)
    (hfind : self.m_receivedIdentityPackets.find socket = some pending)
    (hnp : pending.np = some receivedPacket) :
    tcpSocketConnected env self socket false =
      some ({ self with
                m_receivedIdentityPackets := self.m_receivedIdentityPackets.remove socket },
        [Effect.disconnectSignal socket Signal.errorOccurred Slot.connectError,
         Effect.configureSocket socket,
         Effect.connectSignal socket Signal.disconnected Slot.deleteLater,
         Effect.write socket (env.serialize env.identityPacket),
         Effect.writeDatagram (env.serialize env.identityPacket) pending.sender
           self.m_udpBroadcastPort]) ∧
    (self.m_receivedIdentityPackets.remove socket).find socket = none := by
  refine ⟨?_, QMap.find_remove_self _ _⟩
  simp [tcpSocketConnected, recordedSender, hfind, hnp]

/-- The packet of Fallback 1 is never the packet of Fallback 2: one has a
`tcpPort`, the other has none. -/
theorem identityPacket_setTcpPort_ne (env : Env) (port : Nat) :
    env.identityPacket.setTcpPort port ≠ env.identityPacket := by
  simp [NetworkPacket.setTcpPort, Env.identityPacket]

set_option maxRecDepth 100000 in
/-- C11: the provider listens on 1716 and dialled socket 0 back to `peer2` at
192.168.0.2. When the dial fails, `connectError` sends the identity with
`tcpPort` 1716 (bytes `[2, 10]`); when the identity write does not flush,
`tcpSocketConnected` sends the identity without a `tcpPort` (bytes
`[255, 10]`): same address and port, another datagram, and one the receiver
drops for its port. Both leave no record for socket 0. -/
theorem fallback2_reinvitation_lacks_tcpPort :
    (onStart sampleEnv (LanLinkProvider.init false) true (fun _ => true) 49).map
        (fun r => (r.1.m_tcpPort, r.1.m_udpBroadcastPort)) = some (1716, 1716) ∧
    ((onStart sampleEnv (LanLinkProvider.init false) true (fun _ => true) 49).map
        (fun r => (connectError sampleEnv (udpDatagram sampleEnv r.1 (peerDatagram 0)).1 0).2)) =
      some [Effect.writeDatagram [2, 10] (some 3232235522) 1716, Effect.deleteLater 0] ∧
    ((onStart sampleEnv (LanLinkProvider.init false) true (fun _ => true) 49).bind
        (fun r => (tcpSocketConnected sampleEnv
          (udpDatagram sampleEnv r.1 (peerDatagram 0)).1 0 false).map (fun r2 => r2.2))) =
      some [Effect.disconnectSignal 0 Signal.errorOccurred Slot.connectError,
            Effect.configureSocket 0,
            Effect.connectSignal 0 Signal.disconnected Slot.deleteLater,
            Effect.write 0 [255, 10],
            Effect.writeDatagram [255, 10] (some 3232235522) 1716] ∧
    sampleEnv.serialize (sampleEnv.identityPacket.setTcpPort 1716) = [2, 10] ∧
    sampleEnv.serialize sampleEnv.identityPacket = [255, 10] ∧
    ((onStart sampleEnv (LanLinkProvider.init false) true (fun _ => true) 49).bind
        (fun r => (tcpSocketConnected sampleEnv
          (udpDatagram sampleEnv r.1 (peerDatagram 0)).1 0 false).map
            (fun r2 => r2.1.m_receivedIdentityPackets.find 0))) = some none ∧
    (sampleEnv.unserialize [255, 10]).map NetworkPacket.getTcpPort = some 0 ∧
    udpDatagram sampleEnv (LanLinkProvider.init false)
        { sender := 3232235530, data := [255, 10] } = (LanLinkProvider.init false, []) := by
  decide

/-! ## Destruction of links -/

/-- When the link registered under `deviceId` reports its own destruction, the
assertion holds, the entry is gone and the other entries are as before. -/
theorem onLinkDestroyed_registered (self : LanLinkProvider) (deviceId : QString)
    (link : LanDeviceLink) (h : self.m_links.find deviceId = some link) :
    (onLinkDestroyed self deviceId link.ptr).2 = [] ∧
    (onLinkDestroyed self deviceId link.ptr).1.m_links.find deviceId = none ∧
    (∀ other, other ≠ deviceId →
      (onLinkDestroyed self deviceId link.ptr).1.m_links.find other =
        self.m_links.find other) := by
  refine ⟨?_, QMap.find_remove_self _ _, ?_⟩
  · simp [onLinkDestroyed, h]
  · intro other hne
    exact QMap.find_remove_of_ne _ _ _ hne

set_option maxRecDepth 100000 in
/-- C14: with no paired peer, 43 unpaired peers are registered and `peer43` is
refused at the cap, after `addLink` constructed link 43 for it. When link 43
reports its destruction, `m_links` has no entry for `peer43`: `take` gives the
null pointer and the assertion `link == oldPtr` fails. If `peer0` has gone in
between and `peer43` was registered again as link 44, the report of link 43
takes the entry of the live link 44 out, and the assertion fails as well. -/
theorem onLinkDestroyed_refused_link_fails_assertion :
    Effect.newLanDeviceLink 43 (peerInfo 43) 43 ∈
      (linkRun sampleEnv ((List.range 44).map peerEvent)).2 ∧
    (linkRun sampleEnv ((List.range 44).map peerEvent)).1.m_links.find "peer43" = none ∧
    onLinkDestroyed (linkRun sampleEnv ((List.range 44).map peerEvent)).1 "peer43" 43 =
      ((linkRun sampleEnv ((List.range 44).map peerEvent)).1, [Effect.assertFailed]) ∧
    (linkRun sampleEnv ((List.range 44).map peerEvent ++
        [LinkEvent.onLinkDestroyed "peer0" 0, peerEvent 43])).1.m_links.find "peer43" =
      some { ptr := 44, deviceInfo := peerInfo 43 } ∧
    (onLinkDestroyed (linkRun sampleEnv ((List.range 44).map peerEvent ++
        [LinkEvent.onLinkDestroyed "peer0" 0, peerEvent 43])).1 "peer43" 43).2 =
      [Effect.assertFailed] ∧
    (onLinkDestroyed (linkRun sampleEnv ((List.range 44).map peerEvent ++
        [LinkEvent.onLinkDestroyed "peer0" 0, peerEvent 43])).1 "peer43"
        43).1.m_links.find "peer43" = none := by
  decide

/-! ## Port selection -/

theorem listenLoop_spec (env : Env) (listen : Nat → Bool) (hmax : env.MAX_TCP_PORT < 65535) :
    ∀ (fuel port : Nat), port ≤ env.MAX_TCP_PORT → env.MAX_TCP_PORT - port + 1 ≤ fuel →
      ∃ p ok n, listenLoop env listen fuel port = some (p, ok, List.range' port n) ∧
        1 ≤ n ∧ port + n ≤ env.MAX_TCP_PORT + 1 ∧
        (∀ q, port ≤ q → q < port + n - 1 → listen q = false) ∧
        (ok = true → p = port + n - 1 ∧ listen p = true) ∧
        (ok = false → p = 0 ∧ port + n = env.MAX_TCP_PORT + 1 ∧
          listen (port + n - 1) = false) := by
  intro fuel
  induction fuel with
  | zero =>
    intro port _ hfuel
    omega
  | succ fuel ih =>
    intro port hport hfuel
    by_cases hl : listen port = true
    · refine ⟨port, true, 1, ?_, le_refl _, by omega, ?_, ?_, ?_⟩
      · simp [listenLoop, hl, List.range']
      · intro q h1 h2
        omega
      · intro _
        exact ⟨by omega, hl⟩
      · intro h
        simp at h
    · have hl2 : listen port = false := by simpa using hl
      have hnext : (port + 1) % 65536 = port + 1 := Nat.mod_eq_of_lt (by omega)
      by_cases hlast : port + 1 > env.MAX_TCP_PORT
      · refine ⟨0, false, 1, ?_, le_refl _, by omega, ?_, ?_, ?_⟩
        · simp [listenLoop, hl2, hnext, hlast, List.range']
        · intro q h1 h2
          omega
        · intro h
          simp at h
        · intro _
          exact ⟨rfl, by omega, by simpa using hl2⟩
      · obtain ⟨p, ok, n, hres, hn, hbound, hfalse, hok, hfail⟩ :=
          ih (port + 1) (by omega) (by omega)
        refine ⟨p, ok, n + 1, ?_, by omega, by omega, ?_, ?_, ?_⟩
        · simp [listenLoop, hl2, hnext, hlast, hres, List.range']
        · intro q h1 h2
          by_cases hq : q = port
          · rw [hq]
            exact hl2
          · exact hfalse q (by omega) (by omega)
        · intro h
          obtain ⟨h1, h2⟩ := hok h
          exact ⟨by omega, h2⟩
        · intro h
          obtain ⟨h1, h2, h3⟩ := hfail h
          refine ⟨h1, by omega, ?_⟩
          have he : port + (n + 1) - 1 = port + 1 + n - 1 := by omega
          rw [he]
          exact h3

theorem listenPorts_bound (address : QHostAddress) (udpPort : Nat) (assertion : List Effect)
    (hassert : assertion = [] ∨ assertion = [Effect.assertFailed]) (ports : List Nat)
    (rest : List Effect)
    (hrest : rest = [] ∨ ∃ p, rest = [Effect.broadcastUdpIdentityPacket p]) :
    listenPorts ([Effect.bindUdp address udpPort] ++ assertion ++
      ports.map (Effect.listen address) ++ rest) = ports := by
  have hmap : listenPorts (ports.map (Effect.listen address)) = ports := by
    induction ports with
    | nil => rfl
    | cons p ports ih =>
      simp only [listenPorts] at ih
      simp [listenPorts, ih]
  simp only [listenPorts, List.filterMap_append] at hmap ⊢
  rw [hmap]
  rcases hassert with h | h <;> rcases hrest with h2 | ⟨p, h2⟩ <;> simp [h, h2]

theorem broadcastCount_listen (address : QHostAddress) (udpPort : Nat) (assertion : List Effect)
    (hassert : assertion = [] ∨ assertion = [Effect.assertFailed]) (ports : List Nat)
    (rest : List Effect) :
    broadcastCount ([Effect.bindUdp address udpPort] ++ assertion ++
      ports.map (Effect.listen address) ++ rest) = broadcastCount rest := by
  have hmap : broadcastCount (ports.map (Effect.listen address)) = 0 := by
    induction ports with
    | nil => rfl
    | cons p ports ih =>
      simp only [broadcastCount] at ih
      simp [broadcastCount, ih]
  simp only [broadcastCount, List.countP_append] at hmap ⊢
  rw [hmap]
  rcases hassert with h | h <;> simp [h]

/-- C12, as the code has it: with `MIN_TCP_PORT <= MAX_TCP_PORT < 65535` (so
that the `quint16` increment of `m_tcpPort` cannot wrap) and `listen` a
predicate on the port, `onStart` returns once the loop is given
`MAX_TCP_PORT - MIN_TCP_PORT + 1` rounds. It tries the ports `MIN_TCP_PORT`,
`MIN_TCP_PORT + 1`, ... in order, at most `MAX_TCP_PORT - MIN_TCP_PORT + 1` of
them, all in the range. If a port of the range can be bound, `m_tcpPort` is
the smallest such port, the server listens, and the last call is
`broadcastUdpIdentityPacket()` with that port, made once. If none can be bound,
`m_tcpPort` is 0, the listening state of the server is what it was before and
no broadcast is made. -/
theorem onStart_port_selection (env : Env) (self : LanLinkProvider) (udpBound : Bool)
    (listen : Nat → Bool) (fuel : Nat)
    (hle : env.MIN_TCP_PORT ≤ env.MAX_TCP_PORT) (hmax : env.MAX_TCP_PORT < 65535)
    (hfuel : env.MAX_TCP_PORT - env.MIN_TCP_PORT + 1 ≤ fuel) :
    ∃ r, onStart env self udpBound listen fuel = some r ∧
      listenPorts r.2 = List.range' env.MIN_TCP_PORT (listenPorts r.2).length ∧
      (listenPorts r.2).length ≤ env.MAX_TCP_PORT - env.MIN_TCP_PORT + 1 ∧
      (∀ port ∈ listenPorts r.2, env.MIN_TCP_PORT ≤ port ∧ port ≤ env.MAX_TCP_PORT) ∧
      ((∃ port, env.MIN_TCP_PORT ≤ port ∧ port ≤ env.MAX_TCP_PORT ∧ listen port = true) →
        env.MIN_TCP_PORT ≤ r.1.m_tcpPort ∧ r.1.m_tcpPort ≤ env.MAX_TCP_PORT ∧
        listen r.1.m_tcpPort = true ∧
        (∀ q, env.MIN_TCP_PORT ≤ q → q < r.1.m_tcpPort → listen q = false) ∧
        r.1.m_serverListening = true ∧
        r.2.getLast? = some (Effect.broadcastUdpIdentityPacket r.1.m_tcpPort) ∧
        broadcastCount r.2 = 1) ∧
      ((∀ port, env.MIN_TCP_PORT ≤ port → port ≤ env.MAX_TCP_PORT → listen port = false) →
        r.1.m_tcpPort = 0 ∧ r.1.m_serverListening = self.m_serverListening ∧
        broadcastCount r.2 = 0) := by
  obtain ⟨p, ok, n, hres, hn, hbound, hfalse, hok, hfail⟩ :=
    listenLoop_spec env listen hmax fuel env.MIN_TCP_PORT hle hfuel
  have hassert : (if udpBound = true then ([] : List Effect) else [Effect.assertFailed]) = [] ∨
      (if udpBound = true then ([] : List Effect) else [Effect.assertFailed]) =
        [Effect.assertFailed] := by
    cases udpBound <;> simp
  cases ok with
  | true =>
    obtain ⟨hp, hlp⟩ := hok rfl
    refine ⟨_, by simp only [onStart, hres]; rfl, ?_, ?_, ?_, ?_, ?_⟩
    · simp only [listenPorts_bound _ _ _ hassert _ _ (Or.inr ⟨_, rfl⟩), List.length_range']
    · simp only [listenPorts_bound _ _ _ hassert _ _ (Or.inr ⟨_, rfl⟩), List.length_range']
      omega
    · intro port hmem
      simp only [listenPorts_bound _ _ _ hassert _ _ (Or.inr ⟨_, rfl⟩)] at hmem
      rw [List.mem_range'_1] at hmem
      omega
    · intro _
      refine ⟨by dsimp only; omega, by dsimp only; omega, hlp, ?_, Bool.or_true _, ?_, ?_⟩
      · intro q h1 h2
        dsimp only at h2
        exact hfalse q h1 (by omega)
      · dsimp only
        exact List.getLast?_concat _
      · rw [broadcastCount_listen _ _ _ hassert]
        rfl
    · intro hnone
      have := hnone p (by omega) (by omega)
      rw [hlp] at this
      exact absurd this (by simp)
  | false =>
    obtain ⟨hp, hlen, hlast⟩ := hfail rfl
    have hform : ∀ (l1 l2 : List Effect), l1 ++ l2 = l1 ++ l2 ++ [] := by
      intro l1 l2
      simp
    refine ⟨_, by simp only [onStart, hres]; rfl, ?_, ?_, ?_, ?_, ?_⟩
    · dsimp only
      rw [hform, listenPorts_bound _ _ _ hassert _ _ (Or.inl rfl), List.length_range']
    · dsimp only
      rw [hform, listenPorts_bound _ _ _ hassert _ _ (Or.inl rfl), List.length_range']
      omega
    · intro port hmem
      dsimp only at hmem
      rw [hform, listenPorts_bound _ _ _ hassert _ _ (Or.inl rfl), List.mem_range'_1] at hmem
      omega
    · rintro ⟨port, h1, h2, h3⟩
      have hq : listen port = false := by
        by_cases hport : port < env.MIN_TCP_PORT + n - 1
        · exact hfalse port h1 hport
        · have he : port = env.MIN_TCP_PORT + n - 1 := by omega
          rw [he]
          exact hlast
      rw [hq] at h3
      exact absurd h3 (by simp)
    · intro _
      refine ⟨hp, Bool.or_false _, ?_⟩
      dsimp only
      rw [hform, broadcastCount_listen _ _ _ hassert]
      rfl

/-- With the range 1716-1764: when 1716 and 1717 are taken, port 1718 is
chosen after three attempts and then broadcast; when every port is taken on a
provider that was already listening, `m_tcpPort` is 0, nothing is broadcast and
the provider is still listening. -/
theorem onStart_port_selection_witness :
    (∃ r, onStart sampleEnv (LanLinkProvider.init false) true (fun port => decide (1718 ≤ port))
        49 = some r ∧
      r.1.m_tcpPort = 1718 ∧ listenPorts r.2 = [1716, 1717, 1718] ∧
      r.2.getLast? = some (Effect.broadcastUdpIdentityPacket 1718)) ∧
    (∃ r, onStart sampleEnv { LanLinkProvider.init false with m_serverListening := true } true
        (fun _ => false) 49 = some r ∧
      r.1.m_tcpPort = 0 ∧ r.1.m_serverListening = true ∧ broadcastCount r.2 = 0) := by
  constructor
  · obtain ⟨r, hr, _, _, _, hsome, _⟩ := onStart_port_selection sampleEnv
      (LanLinkProvider.init false) true (fun port => decide (1718 ≤ port)) 49
      (by decide) (by decide) (by decide)
    obtain ⟨_, _, _, _, _, hlast, _⟩ := hsome ⟨1718, by decide, by decide, by decide⟩
    have hr2 : onStart sampleEnv (LanLinkProvider.init false) true
        (fun port => decide (1718 ≤ port)) 49 =
        some ({ LanLinkProvider.init false with m_tcpPort := 1718, m_serverListening := true },
          [Effect.bindUdp 0 1716, Effect.listen 0 1716, Effect.listen 0 1717,
           Effect.listen 0 1718, Effect.broadcastUdpIdentityPacket 1718]) := by
      decide
    have hr3 := hr
    rw [hr2] at hr3
    have hr4 := Option.some.inj hr3
    subst hr4
    exact ⟨_, hr, rfl, by decide, hlast⟩
  · obtain ⟨r, hr, _, _, _, _, hnone⟩ := onStart_port_selection sampleEnv
      { LanLinkProvider.init false with m_serverListening := true } true (fun _ => false) 49
      (by decide) (by decide) (by decide)
    obtain ⟨h1, h2, h3⟩ := hnone (fun _ _ _ => rfl)
    exact ⟨r, hr, h1, h2, h3⟩

/-- C12 fails as stated when `MAX_TCP_PORT` is the largest `quint16`: with the
range 65535-65535 and port 65535 taken, `m_tcpPort++` wraps to 0, which is not
above `MAX_TCP_PORT`, so the loop goes on outside the range. One round,
`MAX_TCP_PORT - MIN_TCP_PORT + 1`, does not end it; with a second round it
calls `listen` on port 0, and when that succeeds the identity is broadcast
although no port of the range could be bound. -/
theorem onStart_port_wraps_at_quint16_max :
    ({ sampleEnv with MIN_TCP_PORT := 65535, MAX_TCP_PORT := 65535 } : Env).MIN_TCP_PORT ≤
      ({ sampleEnv with MIN_TCP_PORT := 65535, MAX_TCP_PORT := 65535 } : Env).MAX_TCP_PORT ∧
    onStart { sampleEnv with MIN_TCP_PORT := 65535, MAX_TCP_PORT := 65535 }
        (LanLinkProvider.init false) true (fun port => port == 0) 1 = none ∧
    onStart { sampleEnv with MIN_TCP_PORT := 65535, MAX_TCP_PORT := 65535 }
        (LanLinkProvider.init false) true (fun port => port == 0) 2 =
      some ({ LanLinkProvider.init false with m_tcpPort := 0, m_serverListening := true },
        [Effect.bindUdp 0 1716, Effect.listen 0 65535, Effect.listen 0 0,
         Effect.broadcastUdpIdentityPacket 0]) := by
  decide

/-! ## The broadcast debounce -/

theorem broadcastToNetwork_fst (self : LanLinkProvider) : (broadcastToNetwork self).1 = self := by
  unfold broadcastToNetwork
  split <;> rfl

theorem broadcastCount_broadcastToNetwork (self : LanLinkProvider) :
    broadcastCount (broadcastToNetwork self).2 = if self.m_serverListening then 1 else 0 := by
  unfold broadcastToNetwork
  cases hl : self.m_serverListening with
  | false => simp [broadcastCount]
  | true =>
    by_cases hp : self.m_tcpPort = 0
    · simp [broadcastCount, hp]
    · simp [broadcastCount, hp]

theorem timeoutCount_broadcastToNetwork (self : LanLinkProvider) :
    timeoutCount (broadcastToNetwork self).2 = 0 := by
  unfold broadcastToNetwork
  cases hl : self.m_serverListening with
  | false => simp [timeoutCount]
  | true =>
    by_cases hp : self.m_tcpPort = 0
    · simp [timeoutCount, hp]
    · simp [timeoutCount, hp]

theorem networkRun_append (self : LanLinkProvider) (xs ys : List NetworkEvent) :
    networkRun self (xs ++ ys) = ys.foldl networkStep (networkRun self xs) := by
  simp [networkRun, List.foldl_append]

theorem networkRun_burst (self : LanLinkProvider) (k : Nat) (hk : 1 ≤ k) :
    networkRun self (List.replicate k NetworkEvent.onNetworkChange) =
      ({ self with m_combineBroadcastsTimer := true }, []) := by
  have harmed : ∀ (j : Nat) (s : LanLinkProvider), s.m_combineBroadcastsTimer = true →
      (List.replicate j NetworkEvent.onNetworkChange).foldl networkStep (s, []) = (s, []) := by
    intro j
    induction j with
    | zero => intro s _; rfl
    | succ j ih =>
      intro s hs
      simp only [List.replicate_succ, List.foldl_cons, networkStep, onNetworkChange, hs, if_true,
        List.append_nil]
      exact ih s hs
  obtain ⟨j, rfl⟩ : ∃ j, k = j + 1 := ⟨k - 1, by omega⟩
  simp only [networkRun, List.replicate_succ, List.foldl_cons, networkStep, onNetworkChange]
  by_cases hs : self.m_combineBroadcastsTimer = true
  · simp only [hs, if_true, List.append_nil]
    rw [harmed j self hs]
    cases self
    simp_all
  · simp only [hs, List.append_nil]
    exact harmed j _ rfl

theorem broadcastCount_append (t u : List Effect) :
    broadcastCount (t ++ u) = broadcastCount t + broadcastCount u := by
  simp [broadcastCount, List.countP_append]

theorem timeoutCount_append (t u : List Effect) :
    timeoutCount (t ++ u) = timeoutCount t + timeoutCount u := by
  simp [timeoutCount, List.countP_append]

theorem debounce_step (st : LanLinkProvider × List Effect) (ev : NetworkEvent) :
    broadcastCount (networkStep st ev).2 + timerArmed (networkStep st ev).1 ≤
      broadcastCount st.2 + timerArmed st.1 + changeCount [ev] ∧
    timeoutCount (networkStep st ev).2 + timerArmed (networkStep st ev).1 ≤
      timeoutCount st.2 + timerArmed st.1 + changeCount [ev] := by
  obtain ⟨self, trace⟩ := st
  cases ev with
  | onNetworkChange =>
    cases hs : self.m_combineBroadcastsTimer with
    | false =>
      simp [networkStep, onNetworkChange, hs, timerArmed, changeCount]
    | true =>
      simp [networkStep, onNetworkChange, hs, timerArmed, changeCount]
  | timerFire =>
    cases hs : self.m_combineBroadcastsTimer with
    | false =>
      simp [networkStep, combineBroadcastsTimeout, hs, timerArmed, changeCount]
    | true =>
      have hb := broadcastCount_broadcastToNetwork { self with m_combineBroadcastsTimer := false }
      have ht := timeoutCount_broadcastToNetwork { self with m_combineBroadcastsTimer := false }
      have hb1 : broadcastCount
          (Effect.combineBroadcastsTimeout ::
            (broadcastToNetwork { self with m_combineBroadcastsTimer := false }).2) ≤ 1 := by
        have : broadcastCount (Effect.combineBroadcastsTimeout ::
            (broadcastToNetwork { self with m_combineBroadcastsTimer := false }).2) =
            broadcastCount
              (broadcastToNetwork { self with m_combineBroadcastsTimer := false }).2 := by
          simp [broadcastCount]
        rw [this, hb]
        split <;> omega
      have ht1 : timeoutCount
          (Effect.combineBroadcastsTimeout ::
            (broadcastToNetwork { self with m_combineBroadcastsTimer := false }).2) = 1 := by
        have : timeoutCount (Effect.combineBroadcastsTimeout ::
            (broadcastToNetwork { self with m_combineBroadcastsTimer := false }).2) =
            timeoutCount
              (broadcastToNetwork { self with m_combineBroadcastsTimer := false }).2 + 1 := by
          simp [timeoutCount]
        rw [this, ht]
      simp only [networkStep, combineBroadcastsTimeout, hs, if_true, broadcastToNetwork_fst,
        broadcastCount_append, timeoutCount_append, ht1, timerArmed, changeCount]
      simp only [Bool.false_eq_true, if_false, List.countP_cons, List.countP_nil]
      constructor
      · have : (if (NetworkEvent.timerFire == NetworkEvent.onNetworkChange) = true then 1 else 0)
            = 0 := by decide
        omega
      · omega

theorem debounce_bound (events : List NetworkEvent) (st : LanLinkProvider × List Effect) :
    broadcastCount (events.foldl networkStep st).2 +
        timerArmed (events.foldl networkStep st).1 ≤
      broadcastCount st.2 + timerArmed st.1 + changeCount events ∧
    timeoutCount (events.foldl networkStep st).2 +
        timerArmed (events.foldl networkStep st).1 ≤
      timeoutCount st.2 + timerArmed st.1 + changeCount events := by
  induction events generalizing st with
  | nil => simp [changeCount]
  | cons ev events ih =>
    simp only [List.foldl_cons]
    have h := ih (networkStep st ev)
    have hs := debounce_step st ev
    have hcc : changeCount (ev :: events) = changeCount [ev] + changeCount events := by
      simp only [changeCount, List.countP_cons, List.countP_nil]
      omega
    rw [hcc]
    constructor
    · have h1 := h.1
      have h2 := hs.1
      omega
    · have h1 := h.2
      have h2 := hs.2
      omega

theorem networkRun_idle_fire (st : LanLinkProvider × List Effect)
    (hidle : st.1.m_combineBroadcastsTimer = false) (j : Nat) :
    (List.replicate j NetworkEvent.timerFire).foldl networkStep st = st := by
  induction j with
  | zero => rfl
  | succ j ih =>
    have hstep : networkStep st NetworkEvent.timerFire = st := by
      simp [networkStep, combineBroadcastsTimeout, hidle]
    simp only [List.replicate_succ, List.foldl_cons, hstep]
    exact ih

/-- C13: on a provider whose broadcast timer is idle, `onNetworkChange` arms the
timer and an `onNetworkChange` on the armed timer changes nothing. So a burst
of `k >= 1` reachability events leaves the timer armed, once; when it fires,
`timeout()` is emitted once and `broadcastToNetwork` runs once, with one
broadcast round when the server is listening and none otherwise, and the timer
is idle again: further turns of the timer do nothing. Over every sequence of
the two events the number of broadcast rounds, and of timer firings, is at
most the number of reachability events. -/
theorem network_change_debounce (self : LanLinkProvider) (k : Nat)
    (hidle : self.m_combineBroadcastsTimer = false) (hk : 1 ≤ k) :
    onNetworkChange self = ({ self with m_combineBroadcastsTimer := true }, []) ∧
    onNetworkChange { self with m_combineBroadcastsTimer := true } =
      ({ self with m_combineBroadcastsTimer := true }, []) ∧
    networkRun self (List.replicate k NetworkEvent.onNetworkChange) =
      ({ self with m_combineBroadcastsTimer := true }, []) ∧
    networkRun self (List.replicate k NetworkEvent.onNetworkChange ++ [NetworkEvent.timerFire]) =
      (self, Effect.combineBroadcastsTimeout :: (broadcastToNetwork self).2) ∧
    timeoutCount (networkRun self
      (List.replicate k NetworkEvent.onNetworkChange ++ [NetworkEvent.timerFire])).2 = 1 ∧
    broadcastCount (networkRun self
      (List.replicate k NetworkEvent.onNetworkChange ++ [NetworkEvent.timerFire])).2 =
      (if self.m_serverListening then 1 else 0) ∧
    (∀ j, networkRun self
        (List.replicate k NetworkEvent.onNetworkChange ++ [NetworkEvent.timerFire] ++
          List.replicate j NetworkEvent.timerFire) =
      networkRun self
        (List.replicate k NetworkEvent.onNetworkChange ++ [NetworkEvent.timerFire])) ∧
    (∀ events, broadcastCount (networkRun self events).2 ≤ changeCount events ∧
      timeoutCount (networkRun self events).2 ≤ changeCount events) := by
  have hself : { self with m_combineBroadcastsTimer := false } = self := by
    cases self
    simp_all
  have hfire : networkRun self
      (List.replicate k NetworkEvent.onNetworkChange ++ [NetworkEvent.timerFire]) =
      (self, Effect.combineBroadcastsTimeout :: (broadcastToNetwork self).2) := by
    rw [networkRun_append, networkRun_burst self k hk]
    simp only [List.foldl_cons, List.foldl_nil, networkStep, combineBroadcastsTimeout, if_true,
      List.nil_append, hself, broadcastToNetwork_fst]
  have ht : timeoutCount (Effect.combineBroadcastsTimeout :: (broadcastToNetwork self).2) = 1 := by
    have : timeoutCount (Effect.combineBroadcastsTimeout :: (broadcastToNetwork self).2) =
        timeoutCount (broadcastToNetwork self).2 + 1 := by
      simp [timeoutCount]
    rw [this, timeoutCount_broadcastToNetwork]
  have hb : broadcastCount (Effect.combineBroadcastsTimeout :: (broadcastToNetwork self).2) =
      (if self.m_serverListening then 1 else 0) := by
    have : broadcastCount (Effect.combineBroadcastsTimeout :: (broadcastToNetwork self).2) =
        broadcastCount (broadcastToNetwork self).2 := by
      simp [broadcastCount]
    rw [this, broadcastCount_broadcastToNetwork]
  refine ⟨?_, ?_, networkRun_burst self k hk, hfire, ?_, ?_, ?_, ?_⟩
  · simp [onNetworkChange, hidle]
  · simp [onNetworkChange]
  · rw [hfire]
    exact ht
  · rw [hfire]
    exact hb
  · intro j
    rw [networkRun_append, hfire]
    exact networkRun_idle_fire _ hidle j
  · intro events
    have h := debounce_bound events (self, [])
    have h0 : timerArmed self = 0 := by simp [timerArmed, hidle]
    have hb0 : broadcastCount ([] : List Effect) = 0 := rfl
    have ht0 : timeoutCount ([] : List Effect) = 0 := rfl
    simp only [h0, hb0, ht0] at h
    unfold networkRun
    constructor
    · have := h.1
      omega
    · have := h.2
      omega

/-- Two reachability events in one loop iteration on a provider listening on
1716: one firing, one broadcast round. -/
theorem network_change_debounce_witness :
    networkRun { LanLinkProvider.init false with m_serverListening := true, m_tcpPort := 1716 }
        [NetworkEvent.onNetworkChange, NetworkEvent.onNetworkChange, NetworkEvent.timerFire] =
      ({ LanLinkProvider.init false with m_serverListening := true, m_tcpPort := 1716 },
       [Effect.combineBroadcastsTimeout, Effect.broadcastUdpIdentityPacket 1716]) ∧
    broadcastCount (networkRun
        { LanLinkProvider.init false with m_serverListening := true, m_tcpPort := 1716 }
        [NetworkEvent.onNetworkChange, NetworkEvent.onNetworkChange,
         NetworkEvent.timerFire]).2 = 1 := by
  have h := network_change_debounce
    { LanLinkProvider.init false with m_serverListening := true, m_tcpPort := 1716 } 2
    (by decide) (by decide)
  exact ⟨h.2.2.2.1, h.2.2.2.2.2.1⟩

end LanLinkProvider

end KdeConnect
